import Mathlib

/-!
Verification development for the MOT-HA-plugin repository (a Home Assistant
integration polling the DVSA MOT history trade API).

The Python sources are shallowly embedded:
  * JSON payloads are modelled by the inductive type JVal;
  * Python dates are modelled by DateM (year, month, day as integers) with
    DateM.toDays giving the proleptic-Gregorian day number (the standard
    civil-from-days formula); Python compares dates field-lexicographically,
    which coincides with day-number order on the valid calendar dates produced
    by the parsers (proved below as toDays_lt_of_lex), so date comparison is
    modelled through toDays;
  * Python datetimes are modelled by DTM (a date plus a rational number of
    seconds, with any UTC offset already subtracted); mixed naive/aware
    comparison, which raises in Python, is not modelled - all DTM values are
    compared on the same axis;
  * stdlib string/number parsing routines used by the sources
    (datetime.fromisoformat, datetime.strptime with format %Y-%m-%d, float,
    int, str.strip, str.upper) are modelled on their documented common
    fragments, as noted on each definition;
  * async control flow is modelled by explicit outcome-per-vehicle functions;
    one poll cycle returns Except (an UpdateFailed exception) or a snapshot
    association list.
-/

/-- A JSON value as decoded by the HTTP client (Python dict/list/str/number/
bool/None). Numbers are modelled as rationals. -/
inductive JVal where
  | null
  | str (s : String)
  | num (q : Rat)
  | bool (b : Bool)
  | arr (xs : List JVal)
  | obj (kvs : List (String × JVal))

/-- A JSON object body: the key/value pairs of a Python dict (keys unique in
payloads produced by the API). -/
abbrev JObj := List (String × JVal)

/-- Model of Python dict.get(k) on an object body: the first value bound to
the key, or None when absent. -/
def jget (o : JObj) (k : String) : JVal :=
  match o with
  | [] => JVal.null
  | (k2, v) :: rest => if k2 = k then v else jget rest k

/-- Model of t.get(k) where t is any decoded JSON value: for dicts the usual
lookup; for any other value this is only used after isinstance checks in the
sources, except in src/sensor.py whose loop would raise AttributeError on a
non-dict entry - the theorems about that loop therefore restrict to dict
entries, and the model returns None on non-dicts. -/
def jgetV (v : JVal) (k : String) : JVal :=
  match v with
  | JVal.obj o => jget o k
  | _ => JVal.null

/-- Model of Python truthiness for decoded JSON values. -/
def JVal.truthy : JVal → Bool
  | JVal.null => false
  | JVal.str s => !(s == "")
  | JVal.num q => !(q == 0)
  | JVal.bool b => b
  | JVal.arr xs => !xs.isEmpty
  | JVal.obj kvs => !kvs.isEmpty

/-- Model of Python (a or b) on decoded JSON values. -/
def pyOr (a b : JVal) : JVal :=
  if a.truthy then a else b

/-- Model of Python (v == "lit") for a decoded JSON value and a string
literal: true exactly when v is that string. -/
def isStrV (v : JVal) (s : String) : Bool :=
  match v with
  | JVal.str t => t == s
  | _ => false

/-- A Python datetime.date: year, month, day. -/
structure DateM where
  y : Int
  m : Int
  d : Int
deriving DecidableEq, Repr

/-- Day count of a month in the Gregorian calendar (Python calendar rules,
as enforced by the datetime constructor). -/
def daysInMonth (y m : Int) : Int :=
  if m = 2 then (if (y % 4 = 0 ∧ y % 100 ≠ 0) ∨ y % 400 = 0 then 29 else 28)
  else if m = 4 ∨ m = 6 ∨ m = 9 ∨ m = 11 then 30 else 31

/-- The dates representable by Python datetime.date (MINYEAR 1 to MAXYEAR
9999, valid month and day). Every DateM produced by the parsers below
satisfies this. -/
def ValidDate (a : DateM) : Prop :=
  1 ≤ a.y ∧ a.y ≤ 9999 ∧ 1 ≤ a.m ∧ a.m ≤ 12 ∧ 1 ≤ a.d ∧ a.d ≤ daysInMonth a.y a.m

instance (a : DateM) : Decidable (ValidDate a) := by
  unfold ValidDate daysInMonth
  exact inferInstance

/-- Model of the Python datetime constructor used by the sources: yields the
date when the components form a representable calendar date, None when the
constructor would raise ValueError. -/
def mkValidDate (y m d : Int) : Option DateM :=
  if ValidDate ⟨y, m, d⟩ then some ⟨y, m, d⟩ else none

/-- Day number of a date (days since 1970-01-01, standard civil-from-days
formula); models the integer day axis behind Python date subtraction
(timedelta.days) and, on valid dates, Python date comparison. -/
def DateM.toDays (a : DateM) : Int :=
  let yAdj := if a.m ≤ 2 then a.y - 1 else a.y
  let era := (if 0 ≤ yAdj then yAdj else yAdj - 399) / 400
  let yoe := yAdj - era * 400
  let mp := (a.m + 9) % 12
  let doy := (153 * mp + 2) / 5 + a.d - 1
  let doe := yoe * 365 + yoe / 4 - yoe / 100 + doy
  era * 146097 + doe - 719468

/-- Zero-padded decimal rendering of a nonnegative integer. -/
def padNum (width : Nat) (n : Int) : String :=
  let s := toString n.toNat
  String.mk (List.replicate (width - s.length) '0' ++ s.data)

/-- Model of Python date.isoformat(). -/
def DateM.isoformat (a : DateM) : String :=
  padNum 4 a.y ++ "-" ++ padNum 2 a.m ++ "-" ++ padNum 2 a.d

/-- A Python datetime as used for ordering test entries: a date plus an
integer microsecond-of-day, with any parsed UTC offset already subtracted
(Python stores whole microseconds). -/
structure DTM where
  date : DateM
  micros : Int
deriving DecidableEq, Repr

/-- The timestamp axis used to compare DTM values, in microseconds (Python
compares naive datetimes lexicographically and aware datetimes by instant;
both agree with this axis for the values the model produces). -/
def DTM.ts (t : DTM) : Int :=
  t.date.toDays * 86400000000 + t.micros

/-- Model of Python datetime.min (year 1, January 1, midnight). -/
def dtMin : DTM := ⟨⟨1, 1, 1⟩, 0⟩

/-- True for an ASCII decimal digit (the \d class restricted to ASCII, which
is all the API date strings contain). -/
def isDigitC (c : Char) : Bool :=
  decide (48 ≤ c.toNat ∧ c.toNat ≤ 57)

/-- Numeric value of an ASCII digit. -/
def dv (c : Char) : Nat :=
  c.toNat - 48

/-- Model of the ASCII fragment of Python str.upper (registration strings
are ASCII). -/
def pyUpperChar (c : Char) : Char :=
  if 97 ≤ c.toNat ∧ c.toNat ≤ 122 then Char.ofNat (c.toNat - 32) else c

/-- Model of the ASCII whitespace stripped by Python str.strip(). -/
def isPySpace (c : Char) : Bool :=
  decide (c.toNat = 32 ∨ c.toNat = 9 ∨ c.toNat = 10 ∨ c.toNat = 13 ∨ c.toNat = 11 ∨ c.toNat = 12)

/-- Strip leading and trailing whitespace from a character list. -/
def stripList (cs : List Char) : List Char :=
  ((cs.dropWhile isPySpace).reverse.dropWhile isPySpace).reverse

/-- Model of Python str.strip(). -/
def pyStrip (s : String) : String :=
  String.mk (stripList s.data)

/-- Model of Python str(v) for a decoded JSON value, on the cases the
sources can reach (strings, None, booleans; numbers are rendered from the
rational model). -/
def pyStr (v : JVal) : String :=
  match v with
  | JVal.str s => s
  | JVal.null => "None"
  | JVal.bool true => "True"
  | JVal.bool false => "False"
  | JVal.num q => toString q
  | JVal.arr _ => "<list>"
  | JVal.obj _ => "<dict>"

/-- Decimal value of a digit list. -/
def digitsVal (cs : List Char) : Nat :=
  cs.foldl (fun acc c => acc * 10 + dv c) 0

/-- Parse an unsigned decimal with an optional fractional part. -/
def parseUnsignedFloat (cs : List Char) : Option Rat :=
  let intPart := cs.takeWhile isDigitC
  let rest := cs.dropWhile isDigitC
  match rest with
  | [] => if intPart.isEmpty then none else some (digitsVal intPart : Rat)
  | dot :: frac =>
    if dot = '.' ∧ frac.all isDigitC ∧ !(intPart.isEmpty && frac.isEmpty) then
      some ((digitsVal intPart : Rat) + (digitsVal frac : Rat) / ((10 : Rat) ^ frac.length))
    else none

/-- Parse an optionally signed decimal with an optional fractional part. -/
def parseFloatChars (cs : List Char) : Option Rat :=
  match cs with
  | [] => none
  | c :: rest =>
    if c = '-' then (parseUnsignedFloat rest).map (fun q => -q)
    else if c = '+' then parseUnsignedFloat rest
    else parseUnsignedFloat cs

/-- Model of Python float(v) on decoded JSON values: numbers convert, bools
convert to 0/1, strings parse as a signed decimal with an optional fractional
part (the common fragment of the float grammar; exponents and specials are
not modelled), everything else raises and yields none. -/
def pyFloat (v : JVal) : Option Rat :=
  match v with
  | JVal.num q => some q
  | JVal.bool b => some (if b then 1 else 0)
  | JVal.str s => parseFloatChars (stripList s.data)
  | _ => none

/-- Parse an optionally signed decimal integer (whole input). -/
def parseIntChars (cs : List Char) : Option Int :=
  match cs with
  | [] => none
  | c :: rest =>
    if c = '-' then (parseDigitsInt rest).map (fun n => -(n : Int))
    else if c = '+' then (parseDigitsInt rest).map (fun n => (n : Int))
    else (parseDigitsInt cs).map (fun n => (n : Int))
where
  parseDigitsInt (ds : List Char) : Option Nat :=
    if ds.isEmpty then none
    else if ds.all isDigitC then some (digitsVal ds) else none

/-- Model of Python int(v) on decoded JSON values: integral rationals pass
through, other numbers truncate toward zero (float semantics), bools convert
to 0/1, strings parse as an optionally signed decimal integer after
stripping whitespace, everything else raises and yields none. -/
def pyInt (v : JVal) : Option Int :=
  match v with
  | JVal.num q => some (q.num / (q.den : Int))
  | JVal.bool b => some (if b then 1 else 0)
  | JVal.str s => parseIntChars (stripList s.data)
  | _ => none

/-- Consume one expected character. -/
def expectC (c : Char) : List Char → Option (List Char)
  | [] => none
  | a :: rest => if a = c then some rest else none

/-- Consume exactly two ASCII digits. -/
def parse2 : List Char → Option (Nat × List Char)
  | a :: b :: rest =>
    if isDigitC a && isDigitC b then some (10 * dv a + dv b, rest) else none
  | _ => none

/-- Consume exactly four ASCII digits. -/
def parse4 : List Char → Option (Nat × List Char)
  | a :: b :: c :: d :: rest =>
    if isDigitC a && isDigitC b && isDigitC c && isDigitC d then
      some (1000 * dv a + 100 * dv b + 10 * dv c + dv d, rest)
    else none
  | _ => none

/-- Parse the optional UTC offset suffix sign HH:MM and return the offset in
microseconds; fails on anything else remaining. -/
def parseOffsetEnd (cs : List Char) : Option Int :=
  match cs with
  | [] => some 0
  | sign :: rest =>
    if sign = '+' ∨ sign = '-' then
      match parse2 rest with
      | none => none
      | some (oh, rest2) =>
        match expectC ':' rest2 with
        | none => none
        | some rest3 =>
          match parse2 rest3 with
          | none => none
          | some (om, rest4) =>
            if rest4 = [] ∧ oh ≤ 23 ∧ om ≤ 59 then
              some (if sign = '-' then -((oh : Int) * 3600000000 + (om : Int) * 60000000)
                    else (oh : Int) * 3600000000 + (om : Int) * 60000000)
            else none
    else none

/-- Parse the optional fractional-seconds digits and then the offset. Returns
(fractional microseconds, offset microseconds); digits beyond the sixth are
truncated, as Python does. -/
def parseFracOffsetEnd (cs : List Char) : Option (Int × Int) :=
  match cs with
  | '.' :: rest =>
    let frac := rest.takeWhile isDigitC
    let rest2 := rest.dropWhile isDigitC
    if frac.isEmpty then none
    else (parseOffsetEnd rest2).map
      (fun off => ((digitsVal (frac.take 6) * 10 ^ (6 - min 6 frac.length) : Nat), off))
  | _ => (parseOffsetEnd cs).map (fun off => (0, off))

/-- Parse the time-of-day part HH:MM, optional :SS, optional fractional
seconds, optional offset; returns the microsecond-of-day with the offset
already subtracted (aware values are placed at their UTC instant). -/
def parseTimePart (cs : List Char) : Option Int :=
  match parse2 cs with
  | none => none
  | some (hh, rest) =>
    match expectC ':' rest with
    | none => none
    | some rest2 =>
      match parse2 rest2 with
      | none => none
      | some (mm, rest3) =>
        let secPart :=
          match rest3 with
          | ':' :: rest4 =>
            match parse2 rest4 with
            | none => none
            | some (ss, rest5) =>
              if ss ≤ 59 then
                (parseFracOffsetEnd rest5).map
                  (fun fo => ((ss : Int) * 1000000 + fo.1, fo.2))
              else none
          | _ => (parseOffsetEnd rest3).map (fun off => ((0 : Int), off))
        match secPart with
        | none => none
        | some (ss, off) =>
          if hh ≤ 23 ∧ mm ≤ 59 then
            some ((hh : Int) * 3600000000 + (mm : Int) * 60000000 + ss - off)
          else none

/-- Model of Python datetime.fromisoformat (CPython 3.11+) restricted to the
extended format YYYY-MM-DD, optionally followed by a T or space separator and
HH:MM, an optional :SS with optional fractional seconds, and an optional
sign HH:MM UTC offset. Other accepted ISO 8601 shapes (basic format, week
dates, ordinal dates, seconds-bearing offsets) are outside the model and
yield none. The date components must form a representable date. -/
def fromisoformatM (cs : List Char) : Option DTM :=
  match parse4 cs with
  | none => none
  | some (yy, rest) =>
    match expectC '-' rest with
    | none => none
    | some rest2 =>
      match parse2 rest2 with
      | none => none
      | some (mo, rest3) =>
        match expectC '-' rest3 with
        | none => none
        | some rest4 =>
          match parse2 rest4 with
          | none => none
          | some (dd, rest5) =>
            let timeMicros :=
              match rest5 with
              | [] => some (0 : Int)
              | sep :: rest6 =>
                if sep = 'T' ∨ sep = ' ' then parseTimePart rest6 else none
            match timeMicros with
            | none => none
            | some micros =>
              match mkValidDate (yy : Int) (mo : Int) (dd : Int) with
              | none => none
              | some date => some ⟨date, micros⟩

/-- Model of str.replace("Z", "+00:00") at character level. -/
def replaceZ : List Char → List Char
  | [] => []
  | c :: rest =>
    if c = 'Z' then '+' :: '0' :: '0' :: ':' :: '0' :: '0' :: replaceZ rest
    else c :: replaceZ rest

/-- Attempt to match, anchored at the head of the list, the regex used by
the custom_components sensor: four digits, a separator (dot, dash or slash),
two digits, a separator, two digits. -/
def ymdAt (cs : List Char) : Option (Nat × Nat × Nat) :=
  match cs with
  | a :: b :: c :: d :: s1 :: e :: f :: s2 :: g :: h :: _ =>
    if isDigitC a && isDigitC b && isDigitC c && isDigitC d &&
       (s1 = '.' || s1 = '-' || s1 = '/') &&
       isDigitC e && isDigitC f &&
       (s2 = '.' || s2 = '-' || s2 = '/') &&
       isDigitC g && isDigitC h then
      some (1000 * dv a + 100 * dv b + 10 * dv c + dv d,
            10 * dv e + dv f, 10 * dv g + dv h)
    else none
  | _ => none

/-- Model of re.search with the year-month-day pattern above: the leftmost
position where the fixed-width pattern matches. -/
def ymdSearch : List Char → Option (Nat × Nat × Nat)
  | [] => none
  | c :: rest =>
    match ymdAt (c :: rest) with
    | some r => some r
    | none => ymdSearch rest

/-- Field of the strptime %m directive (regex 1[0-2]|0[1-9]|[1-9]): a
two-digit month 01..12, or a single nonzero digit not followed by a digit. -/
def parseMonthField : List Char → Option (Nat × List Char)
  | [] => none
  | [a] => if isDigitC a ∧ 1 ≤ dv a then some (dv a, []) else none
  | a :: b :: rest =>
    if isDigitC a ∧ isDigitC b then
      (if 1 ≤ 10 * dv a + dv b ∧ 10 * dv a + dv b ≤ 12 then
        some (10 * dv a + dv b, rest)
      else none)
    else if isDigitC a ∧ 1 ≤ dv a then some (dv a, b :: rest)
    else none

/-- Field of the strptime %d directive at end of input (regex
3[01]|[12]\d|0[1-9]|[1-9] followed by end of string): a two-digit day
01..31 or a single nonzero digit, with nothing after it. -/
def parseDayFieldEnd : List Char → Option Nat
  | [a] => if isDigitC a ∧ 1 ≤ dv a then some (dv a) else none
  | [a, b] =>
    if isDigitC a ∧ isDigitC b ∧ 1 ≤ 10 * dv a + dv b ∧ 10 * dv a + dv b ≤ 31 then
      some (10 * dv a + dv b)
    else none
  | _ => none

/-- Model of datetime.strptime(t, "%Y-%m-%d").date() on a character list:
exactly four digits of year, a dash, the %m month field, a dash, the %d day
field consuming the rest; the components must form a representable date. -/
def strptimeYMD (cs : List Char) : Option DateM :=
  match parse4 cs with
  | none => none
  | some (yy, rest) =>
    match expectC '-' rest with
    | none => none
    | some rest2 =>
      match parseMonthField rest2 with
      | none => none
      | some (mo, rest3) =>
        match expectC '-' rest3 with
        | none => none
        | some rest4 =>
          match parseDayFieldEnd rest4 with
          | none => none
          | some dd => mkValidDate (yy : Int) (mo : Int) (dd : Int)

/-- Insert into a sorted list, keeping the inserted element before every
element it compares less-or-equal against: the stable insertion step. -/
def insertStable {α : Type} (le : α → α → Bool) (x : α) : List α → List α
  | [] => [x]
  | y :: ys => if le x y then x :: y :: ys else y :: insertStable le x ys

/-- Stable sort by a Boolean relation; models Python sorted (a stable sort)
in the orientation given by le. -/
def sortStable {α : Type} (le : α → α → Bool) : List α → List α
  | [] => []
  | x :: xs => insertStable le x (sortStable le xs)

theorem insertStable_perm {α : Type} (le : α → α → Bool) (x : α) (l : List α) :
    (insertStable le x l).Perm (x :: l) := by
  induction l with
  | nil => simp [insertStable]
  | cons y ys ih =>
    simp only [insertStable]
    split
    · exact List.Perm.refl _
    · exact (List.Perm.cons y ih).trans (List.Perm.swap x y ys)

theorem sortStable_perm {α : Type} (le : α → α → Bool) (l : List α) :
    (sortStable le l).Perm l := by
  induction l with
  | nil => exact List.Perm.refl _
  | cons x xs ih =>
    exact (insertStable_perm le x (sortStable le xs)).trans (List.Perm.cons x ih)

theorem insertStable_pairwise {α : Type} (le : α → α → Bool)
    (htrans : ∀ a b c, le a b = true → le b c = true → le a c = true)
    (htot : ∀ a b, le a b = true ∨ le b a = true) (x : α) (l : List α)
    (hl : l.Pairwise (fun a b => le a b = true)) :
    (insertStable le x l).Pairwise (fun a b => le a b = true) := by
  induction l with
  | nil => simp [insertStable]
  | cons y ys ih =>
    rcases List.pairwise_cons.mp hl with ⟨hy, hys⟩
    by_cases hxy : le x y = true
    · simp only [insertStable, if_pos hxy]
      refine List.pairwise_cons.mpr ⟨?_, hl⟩
      intro b hb
      rcases List.mem_cons.mp hb with h | h
      · exact h ▸ hxy
      · exact htrans x y b hxy (hy b h)
    · simp only [insertStable, if_neg hxy]
      refine List.pairwise_cons.mpr ⟨?_, ih hys⟩
      intro b hb
      rcases List.mem_cons.mp ((insertStable_perm le x ys).mem_iff.mp hb) with h | h
      · rcases htot x y with h2 | h2
        · exact absurd h2 hxy
        · exact h ▸ h2
      · exact hy b h

theorem sortStable_pairwise {α : Type} (le : α → α → Bool)
    (htrans : ∀ a b c, le a b = true → le b c = true → le a c = true)
    (htot : ∀ a b, le a b = true ∨ le b a = true) (l : List α) :
    (sortStable le l).Pairwise (fun a b => le a b = true) := by
  induction l with
  | nil => simp [sortStable]
  | cons x xs ih => exact insertStable_pairwise le htrans htot x _ ih

theorem toDays_d_mono (y m d d2 : Int) (h : d < d2) :
    DateM.toDays ⟨y, m, d⟩ < DateM.toDays ⟨y, m, d2⟩ := by
  simp only [DateM.toDays]
  omega

theorem toDays_d_mono_le (y m d d2 : Int) (h : d ≤ d2) :
    DateM.toDays ⟨y, m, d⟩ ≤ DateM.toDays ⟨y, m, d2⟩ := by
  simp only [DateM.toDays]
  omega

set_option maxHeartbeats 1600000 in
theorem toDays_nextMonth (y m d : Int) (h1 : 1 ≤ m) (h2 : m ≤ 11)
    (hd : d ≤ daysInMonth y m) (hy : 1 ≤ y) :
    DateM.toDays ⟨y, m, d⟩ < DateM.toDays ⟨y, m + 1, 1⟩ := by
  simp only [DateM.toDays, daysInMonth] at hd ⊢
  interval_cases m <;> split_ifs at hd ⊢ <;> omega

theorem toDays_m_mono (y m d m2 d2 : Int) (h1 : 1 ≤ m) (h2 : m < m2) (h3 : m2 ≤ 12)
    (hd : d ≤ daysInMonth y m) (hd2 : 1 ≤ d2) (hy : 1 ≤ y) :
    DateM.toDays ⟨y, m, d⟩ < DateM.toDays ⟨y, m2, d2⟩ := by
  have base : DateM.toDays ⟨y, m, d⟩ < DateM.toDays ⟨y, m + 1, 1⟩ :=
    toDays_nextMonth y m d h1 (by omega) hd hy
  have chain : ∀ n : Int, m + 1 ≤ n → n ≤ 12 →
      DateM.toDays ⟨y, m, d⟩ < DateM.toDays ⟨y, n, 1⟩ := by
    intro n hn
    refine Int.le_induction
      (P := fun n2 => n2 ≤ 12 → DateM.toDays ⟨y, m, d⟩ < DateM.toDays ⟨y, n2, 1⟩)
      (fun _ => base) ?_ n hn
    intro k hk ih hk12
    have hlt : DateM.toDays ⟨y, m, d⟩ < DateM.toDays ⟨y, k, 1⟩ := ih (by omega)
    have hstep : DateM.toDays ⟨y, k, 1⟩ < DateM.toDays ⟨y, k + 1, 1⟩ := by
      refine toDays_nextMonth y k 1 (by omega) (by omega) ?_ hy
      simp only [daysInMonth]
      split_ifs <;> omega
    omega
  have h4 : DateM.toDays ⟨y, m, d⟩ < DateM.toDays ⟨y, m2, 1⟩ := chain m2 (by omega) h3
  have h5 : DateM.toDays ⟨y, m2, 1⟩ ≤ DateM.toDays ⟨y, m2, d2⟩ := toDays_d_mono_le y m2 1 d2 hd2
  omega

theorem toDays_year_step (y y2 d : Int) (hy : 1 ≤ y) (h : y < y2) (hd : d ≤ 31) :
    DateM.toDays ⟨y, 12, d⟩ < DateM.toDays ⟨y2, 1, 1⟩ := by
  simp only [DateM.toDays]
  split_ifs <;> omega

theorem daysInMonth_le_31 (y m : Int) : daysInMonth y m ≤ 31 := by
  simp only [daysInMonth]
  split_ifs <;> omega

/-- Day-number order agrees with the field-lexicographic order Python uses
to compare dates, on valid calendar dates. -/
theorem toDays_lt_of_lex (a b : DateM) (ha : ValidDate a) (hb : ValidDate b)
    (h : a.y < b.y ∨ (a.y = b.y ∧ (a.m < b.m ∨ (a.m = b.m ∧ a.d < b.d)))) :
    a.toDays < b.toDays := by
  obtain ⟨hay1, hay2, ham1, ham2, had1, had2⟩ := ha
  obtain ⟨hby1, hby2, hbm1, hbm2, hbd1, hbd2⟩ := hb
  obtain ⟨ya, ma, da⟩ := a
  obtain ⟨yb, mb, db⟩ := b
  simp only at *
  rcases h with hy | ⟨hy, h⟩
  · have s1 : DateM.toDays ⟨ya, ma, da⟩ ≤ DateM.toDays ⟨ya, 12, 31⟩ := by
      rcases lt_or_eq_of_le ham2 with hm | hm
      · exact le_of_lt (toDays_m_mono ya ma da 12 31 ham1 hm (by omega) had2 (by omega) hay1)
      · subst hm
        exact toDays_d_mono_le ya 12 da 31 (le_trans had2 (daysInMonth_le_31 ya 12))
    have s2 : DateM.toDays ⟨ya, 12, 31⟩ < DateM.toDays ⟨yb, 1, 1⟩ :=
      toDays_year_step ya yb 31 hay1 hy (by omega)
    have s3 : DateM.toDays ⟨yb, 1, 1⟩ ≤ DateM.toDays ⟨yb, mb, db⟩ := by
      rcases lt_or_eq_of_le hbm1 with hm | hm
      · refine le_of_lt (toDays_m_mono yb 1 1 mb db (by omega) hm hbm2 ?_ hbd1 hby1)
        simp only [daysInMonth]
        split_ifs <;> omega
      · rw [← hm]
        exact toDays_d_mono_le yb 1 1 db hbd1
    omega
  · subst hy
    rcases h with hm | ⟨hm, hd⟩
    · exact toDays_m_mono ya ma da mb db ham1 hm hbm2 had2 hbd1 hay1
    · subst hm
      exact toDays_d_mono ya ma da db hd

/-- Day numbers identify valid calendar dates. -/
theorem toDays_inj_on_valid (a b : DateM) (ha : ValidDate a) (hb : ValidDate b)
    (h : a.toDays = b.toDays) : a = b := by
  rcases lt_trichotomy a.y b.y with hy | hy | hy
  · exact absurd h (ne_of_lt (toDays_lt_of_lex a b ha hb (Or.inl hy)))
  · rcases lt_trichotomy a.m b.m with hm | hm | hm
    · exact absurd h (ne_of_lt (toDays_lt_of_lex a b ha hb (Or.inr ⟨hy, Or.inl hm⟩)))
    · rcases lt_trichotomy a.d b.d with hd | hd | hd
      · exact absurd h
          (ne_of_lt (toDays_lt_of_lex a b ha hb (Or.inr ⟨hy, Or.inr ⟨hm, hd⟩⟩)))
      · obtain ⟨ya, ma, da⟩ := a
        obtain ⟨yb, mb, db⟩ := b
        simp only at hy hm hd
        simp [hy, hm, hd]
      · exact absurd h.symm
          (ne_of_lt (toDays_lt_of_lex b a hb ha (Or.inr ⟨hy.symm, Or.inr ⟨hm.symm, hd⟩⟩)))
    · exact absurd h.symm
        (ne_of_lt (toDays_lt_of_lex b a hb ha (Or.inr ⟨hy.symm, Or.inl hm⟩)))
  · exact absurd h.symm (ne_of_lt (toDays_lt_of_lex b a hb ha (Or.inl hy)))

/-- The typed error hierarchy of api.py: MotApiError is the base class;
MotAuthError and MotNotFoundError are subclasses. The constructors carry
the exception message. -/
inductive MotErr where
  | apiError (msg : String)
  | authError (msg : String)
  | notFoundError (msg : String)
deriving DecidableEq, Repr

/-- The Token dataclass of api.py; expires_at is a UTC timestamp modelled in
whole seconds. -/
structure Token where
  access_token : String
  expires_at : Int
deriving DecidableEq, Repr

/-- The JSON body of a token-endpoint response, reduced to the two fields
api.py reads: access_token (absent, or a string, possibly empty) and
expires_in (absent, or an integer number of seconds). -/
structure TokenPayload where
  access_token : Option String
  expires_in : Option Int
deriving DecidableEq, Repr

/-- The outside world seen by one token-endpoint POST: an HTTP response with
a status and (for the success path) a decoded JSON payload, or a transport
failure (aiohttp.ClientError). -/
inductive TokenNet where
  | resp (status : Nat) (payload : TokenPayload)
  | clientError (msg : String)
deriving DecidableEq, Repr

namespace DvsaMotClient

/-- Model of DvsaMotClient._get_token in custom_components/dvsa_mot/api.py.
State passed explicitly: the cached token, the current UTC time in seconds,
and the network behaviour of the single POST the body would issue (the body
runs under the token lock, so one call sees one coherent world). Returns the
call result, the cache afterwards, and whether a network request was made.
Response-body text used in messages is not modelled. -/
def _get_token (cached : Option Token) (now : Int) (net : TokenNet) :
    Except MotErr String × Option Token × Bool :=
  match cached with
  | some t =>
    if 60 < t.expires_at - now then (Except.ok t.access_token, some t, false)
    else refreshStep cached now net
  | none => refreshStep cached now net
where
  refreshStep (cached : Option Token) (now : Int) (net : TokenNet) :
      Except MotErr String × Option Token × Bool :=
    match net with
    | TokenNet.clientError m =>
      (Except.error (MotErr.apiError ("Token request error: " ++ m)), cached, true)
    | TokenNet.resp status payload =>
      if status = 401 ∨ status = 403 then
        (Except.error (MotErr.authError "Token request unauthorized"), cached, true)
      else if 400 ≤ status then
        (Except.error (MotErr.apiError "Token request failed"), cached, true)
      else
        match payload.access_token with
        | none =>
          (Except.error (MotErr.apiError "Token response missing access_token"), cached, true)
        | some s =>
          if s = "" then
            (Except.error (MotErr.apiError "Token response missing access_token"), cached, true)
          else
            (Except.ok s, some ⟨s, now + payload.expires_in.getD 3600⟩, true)

end DvsaMotClient

/-- The outcome of one vehicle_by_registration call as seen by a
coordinator: the decoded payload, or one of the typed api.py errors, or an
exception of some other class (unexpected). -/
inductive LookupRes where
  | success (payload : JVal)
  | notFound (msg : String)
  | authErr (msg : String)
  | apiErr (msg : String)
  | unexpected (msg : String)

/-- Model of Python str.strip + .replace(space, empty) + .upper applied to a
registration, as written identically in both coordinators and api.py. -/
def normalizeReg (s : String) : String :=
  String.mk (((stripList s.data).filter (fun c => !(c = ' '))).map pyUpperChar)

namespace DvsaMotDataUpdateCoordinator

/-- The first loop of _get_registrations in
custom_components/dvsa_mot/coordinator.py: normalize each entry and keep the
nonempty results. -/
def cleanedRegs (regs : List String) : List String :=
  regs.filterMap (fun r => let rr := normalizeReg r; if rr = "" then none else some rr)

/-- The second loop of _get_registrations: drop entries already seen,
preserving first-seen order. -/
def dedupeSeen : List String → List String → List String
  | [], _ => []
  | r :: rs, seen =>
    if r ∈ seen then dedupeSeen rs seen else r :: dedupeSeen rs (r :: seen)

/-- Model of DvsaMotDataUpdateCoordinator._get_registrations in
custom_components/dvsa_mot/coordinator.py. -/
def _get_registrations (regs : List String) : List String :=
  dedupeSeen (cleanedRegs regs) []

/-- The snapshot entry the per-vehicle loop body of _async_update_data in
custom_components/dvsa_mot/coordinator.py records for one non-auth outcome.
MotNotFoundError is a subclass of MotApiError and this coordinator has no
MotNotFoundError clause, so a not-found lookup is caught by the MotApiError
clause and recorded as an api_error marker without detail. -/
def entryFor (res : LookupRes) : JVal :=
  match res with
  | LookupRes.success p => p
  | LookupRes.notFound _ => JVal.obj [("_error", JVal.str "api_error")]
  | LookupRes.apiErr _ => JVal.obj [("_error", JVal.str "api_error")]
  | LookupRes.unexpected m => JVal.obj [("_error", JVal.str "api_error"), ("detail", JVal.str m)]
  | LookupRes.authErr _ => JVal.null

/-- The sequential per-vehicle loop of _async_update_data: on MotAuthError
the whole update raises UpdateFailed (modelled as Except.error), discarding
any entries already recorded; every other outcome records an entry. -/
def updateLoop (lookup : String → LookupRes) : List String → Except String (List (String × JVal))
  | [] => Except.ok []
  | r :: rs =>
    match lookup r with
    | LookupRes.authErr m => Except.error ("Authentication failed: " ++ m)
    | res => (updateLoop lookup rs).map (fun rest => (r, entryFor res) :: rest)

/-- Model of DvsaMotDataUpdateCoordinator._async_update_data in
custom_components/dvsa_mot/coordinator.py: registrations are re-read at the
start of every cycle, then each is looked up in turn. The snapshot dict is
modelled as an association list in processing order. -/
def _async_update_data (regs : List String) (lookup : String → LookupRes) :
    Except String (List (String × JVal)) :=
  updateLoop lookup (_get_registrations regs)

end DvsaMotDataUpdateCoordinator

namespace DvsaMotCoordinator

/-- The registration normalization in DvsaMotCoordinator.__init__ in
src/coordinator.py: normalize each entry whose stripped form is nonempty.
No deduplication is performed. -/
def initRegistrations (regs : List String) : List String :=
  regs.filterMap (fun r => if pyStrip r = "" then none else some (normalizeReg r))

/-- The snapshot entry the fetch closure of _async_update_data in
src/coordinator.py records for one outcome that it catches. -/
def entryFor (res : LookupRes) : JVal :=
  match res with
  | LookupRes.success p => p
  | LookupRes.notFound _ => JVal.obj [("_error", JVal.str "not_found")]
  | LookupRes.apiErr m => JVal.obj [("_error", JVal.str "api_error"), ("message", JVal.str m)]
  | LookupRes.unexpected _ => JVal.null
  | LookupRes.authErr _ => JVal.null

/-- Model of DvsaMotCoordinator._async_update_data in src/coordinator.py.
The per-vehicle tasks run under asyncio.gather with a semaphore of weight 2;
a MotAuthError raises UpdateFailed and any exception that is not a
MotApiError propagates uncaught (there is no bare except clause), so in both
cases gather re-raises, the partially filled results dict is discarded and
the update fails. The results dict is modelled as an association list in
registration order; per-registration lookups are unaffected by completion
order. -/
def updateGather (lookup : String → LookupRes) : List String → Except String (List (String × JVal))
  | [] => Except.ok []
  | r :: rs =>
    match lookup r with
    | LookupRes.authErr m => Except.error ("Auth error: " ++ m)
    | LookupRes.unexpected m => Except.error m
    | res => (updateGather lookup rs).map (fun rest => (r, entryFor res) :: rest)

/-- Model of DvsaMotCoordinator._async_update_data applied to the
registration list computed at construction time. -/
def _async_update_data (regs : List String) (lookup : String → LookupRes) :
    Except String (List (String × JVal)) :=
  updateGather lookup (initRegistrations regs)

end DvsaMotCoordinator

/-- Modelled from the spec: the host DataUpdateCoordinator (Home Assistant,
outside this repository) installs the returned snapshot when the update
succeeds and retains the previously exposed data when the update raises, per
the §4.3 cycle contract (Settled replaces the Snapshot, Aborted leaves the
previous Snapshot in place). -/
def applyCycle (prev : List (String × JVal)) (res : Except String (List (String × JVal))) :
    List (String × JVal) :=
  match res with
  | Except.ok snap => snap
  | Except.error _ => prev

/-- A value returned by an entity property to Home Assistant: Python None,
str, int, float, date, bool, a raw decoded JSON value passed through, or a
dict of such values. -/
inductive PyVal where
  | pnone
  | pstr (s : String)
  | pint (n : Int)
  | pfloat (q : Rat)
  | pdate (d : DateM)
  | pbool (b : Bool)
  | pjson (v : JVal)
  | pobj (kvs : List (String × PyVal))

/-- View a decoded JSON value as the Python value handed to Home Assistant
(JSON null is Python None). -/
def jvalToPy (v : JVal) : PyVal :=
  match v with
  | JVal.null => PyVal.pnone
  | JVal.str s => PyVal.pstr s
  | JVal.num q => PyVal.pfloat q
  | JVal.bool b => PyVal.pbool b
  | v2 => PyVal.pjson v2

/-- True exactly for Python None. -/
def isNonePy (v : PyVal) : Bool :=
  match v with
  | PyVal.pnone => true
  | _ => false

/-- An optional string as a Python value. -/
def optStr (o : Option String) : PyVal :=
  match o with
  | some s => PyVal.pstr s
  | none => PyVal.pnone

/-- An optional float as a Python value. -/
def optFloat (o : Option Rat) : PyVal :=
  match o with
  | some q => PyVal.pfloat q
  | none => PyVal.pnone

/-- An optional date as a Python value. -/
def optDate (o : Option DateM) : PyVal :=
  match o with
  | some d => PyVal.pdate d
  | none => PyVal.pnone

/-- Model of the ASCII fragment of Python str.lower. -/
def pyLowerChar (c : Char) : Char :=
  if 65 ≤ c.toNat ∧ c.toNat ≤ 90 then Char.ofNat (c.toNat + 32) else c

/-- Model of Python round(q, 0): round half to even. -/
def roundHalfEven (q : Rat) : Rat :=
  let f : Int := q.floor
  let frac : Rat := q - (f : Rat)
  if frac < 1 / 2 then (f : Rat)
  else if 1 / 2 < frac then ((f + 1 : Int) : Rat)
  else if f % 2 = 0 then (f : Rat) else ((f + 1 : Int) : Rat)

/-- The dict-shaped members of a decoded JSON list element. -/
def asObj (v : JVal) : Option JObj :=
  match v with
  | JVal.obj o => some o
  | _ => none

namespace CCSensor

/-- Model of _parse_dt in custom_components/dvsa_mot/sensor.py. The
isinstance(datetime) and isinstance(date) branches cannot trigger on decoded
JSON input and are omitted. A falsy value (None, empty string, zero) returns
None; a non-string returns None; otherwise the string is stripped, Z is
replaced by +00:00, datetime.fromisoformat is attempted, and on failure the
year-month-day regex is searched for and the datetime constructor applied. -/
def _parse_dt (value : JVal) : Option DTM :=
  if !value.truthy then none
  else
    match value with
    | JVal.str s =>
      let cs := stripList s.data
      if cs.isEmpty then none
      else
        match fromisoformatM (replaceZ cs) with
        | some dt => some dt
        | none =>
          match ymdSearch cs with
          | none => none
          | some (yy, mo, dd) =>
            (mkValidDate (yy : Int) (mo : Int) (dd : Int)).map (fun d => ⟨d, 0⟩)
    | _ => none

/-- Model of _parse_date in custom_components/dvsa_mot/sensor.py. -/
def _parse_date (value : JVal) : Option DateM :=
  (_parse_dt value).map DTM.date

/-- The first two lines of _sorted_tests: vehicle.get("motTests") or [],
keeping the dict-shaped entries. Iterating a truthy non-list (a string or a
dict) yields no dict elements; numbers, which would raise TypeError in
Python, are outside the JSON payload shapes this models and also yield the
empty list. -/
def testsOf (vehicle : JObj) : List JObj :=
  match pyOr (jget vehicle "motTests") (JVal.arr []) with
  | JVal.arr xs => xs.filterMap asObj
  | _ => []

/-- The key closure of _sorted_tests: the parsed completedDate (or
completedDateTime), else the parsed expiryDate, else datetime.min, on the
timestamp axis. -/
def testKey (t : JObj) : Int :=
  match _parse_dt (pyOr (jget t "completedDate") (jget t "completedDateTime")) with
  | some dt => dt.ts
  | none =>
    match _parse_dt (jget t "expiryDate") with
    | some e => e.ts
    | none => dtMin.ts

/-- Model of _sorted_tests in custom_components/dvsa_mot/sensor.py: the
dict-shaped history entries, stably sorted newest-first by testKey
(sorted with reverse=True). -/
def _sorted_tests (vehicle : JObj) : List JObj :=
  sortStable (fun a b => decide (testKey b ≤ testKey a)) (testsOf vehicle)

/-- Model of _extract_latest_test in custom_components/dvsa_mot/sensor.py. -/
def _extract_latest_test (vehicle : JObj) : Option JObj :=
  (_sorted_tests vehicle).head?

/-- The fold the due-date fallback loop performs over one entry: keep the
largest parsed expiryDate seen so far (strict greater-than, first one kept
on ties). -/
def bestExpiry (best : Option DateM) (t : JObj) : Option DateM :=
  match _parse_date (jget t "expiryDate") with
  | none => best
  | some exp =>
    match best with
    | none => some exp
    | some b => if b.toDays < exp.toDays then some exp else some b

/-- Model of _extract_current_due_date in
custom_components/dvsa_mot/sensor.py: the parsed top-level motTestDueDate if
present, else the maximum parsed expiryDate over the sorted history
entries. -/
def _extract_current_due_date (vehicle : JObj) : Option DateM :=
  match _parse_date (jget vehicle "motTestDueDate") with
  | some due => some due
  | none => (_sorted_tests vehicle).foldl bestExpiry none

/-- Model of _latest_odometer in custom_components/dvsa_mot/sensor.py:
(odometer value via float(), unit lower-cased and stripped or None, parsed
completion date) of the latest test entry. -/
def _latest_odometer (vehicle : JObj) : Option Rat × Option String × Option DateM :=
  match _extract_latest_test vehicle with
  | none => (none, none, none)
  | some latest =>
    let unitRaw :=
      String.mk (stripList ((pyStr (pyOr (jget latest "odometerUnit") (JVal.str ""))).data.map pyLowerChar))
    let unit := if unitRaw = "" then none else some unitRaw
    let as_of := _parse_date (pyOr (jget latest "completedDate") (jget latest "completedDateTime"))
    match pyFloat (jget latest "odometerValue") with
    | none => (none, unit, as_of)
    | some q => (some q, unit, as_of)

/-- Model of _avg_annual_since_registration in
custom_components/dvsa_mot/sensor.py: latest odometer reading divided by
years since registration (365.25-day years), with the debug attribute
dict. -/
def _avg_annual_since_registration (vehicle : JObj) (today : DateM) :
    Option Rat × Option String × List (String × PyVal) :=
  let reg_date := _parse_date (jget vehicle "registrationDate")
  let lo := _latest_odometer vehicle
  let dbg : List (String × PyVal) :=
    [("registration_date", optStr (reg_date.map DateM.isoformat)),
     ("odometer", optFloat lo.1),
     ("odometer_unit", optStr lo.2.1),
     ("odometer_as_of", optStr (lo.2.2.map DateM.isoformat))]
  match reg_date, lo.1 with
  | some rd, some odo =>
    let days := today.toDays - rd.toDays
    if days ≤ 0 then (none, lo.2.1, dbg)
    else (some (odo / ((days : Rat) / 365.25)), lo.2.1, dbg)
  | _, _ => (none, lo.2.1, dbg)

/-- Model of DvsaMotSensor.available in
custom_components/dvsa_mot/sensor.py: data is the snapshot entry for the
sensor registration (None when the coordinator has no data or no entry). -/
def available (data : Option JVal) : Bool :=
  match data with
  | some (JVal.obj o) => !(isStrV (jget o "_error") "api_error")
  | _ => false

/-- The per-key dispatch of DvsaMotSensor.native_value after the guard. -/
def nvDispatch (o : JObj) (key : String) (warn_days : Int) (today : DateM) : PyVal :=
  let due := _extract_current_due_date o
  let latest := _extract_latest_test o
  if key = "due_date" then optDate due
  else if key = "days_remaining" then
    match due with
    | some d => PyVal.pint (d.toDays - today.toDays)
    | none => PyVal.pnone
  else if key = "status" then
    match due with
    | none => PyVal.pstr "unknown"
    | some d =>
      if d.toDays < today.toDays then PyVal.pstr "expired"
      else if d.toDays - today.toDays ≤ warn_days then PyVal.pstr "expires_soon"
      else PyVal.pstr "valid"
  else if key = "last_result" then
    match latest with
    | some t => jvalToPy (jget t "testResult")
    | none => PyVal.pnone
  else if key = "last_test_date" then
    match latest with
    | none => PyVal.pnone
    | some t => optDate (_parse_date (pyOr (jget t "completedDate") (jget t "completedDateTime")))
  else if key = "make_model" then
    let mk := jget o "make"
    let md := jget o "model"
    if mk.truthy && md.truthy then PyVal.pstr (pyStr mk ++ " " ++ pyStr md)
    else jvalToPy (pyOr mk md)
  else if key = "engine_size" then
    match jget o "engineSize" with
    | JVal.null => PyVal.pnone
    | v =>
      match pyInt v with
      | some n => PyVal.pint n
      | none => PyVal.pnone
  else if key = "fuel_type" then jvalToPy (jget o "fuelType")
  else if key = "primary_colour" then jvalToPy (jget o "primaryColour")
  else if key = "secondary_colour" then jvalToPy (jget o "secondaryColour")
  else if key = "registration_date" then optDate (_parse_date (jget o "registrationDate"))
  else if key = "manufacture_date" then optDate (_parse_date (jget o "manufactureDate"))
  else if key = "mot_test_count" then
    match pyOr (jget o "motTests") (JVal.arr []) with
    | JVal.arr xs => PyVal.pint xs.length
    | _ => PyVal.pnone
  else if key = "avg_annual_mileage_since_registration" then
    match (_avg_annual_since_registration o today).1 with
    | some avg => PyVal.pfloat (roundHalfEven avg)
    | none => PyVal.pnone
  else PyVal.pnone

/-- Model of DvsaMotSensor.native_value in
custom_components/dvsa_mot/sensor.py: None when the entry is absent, not a
dict, or the not_found marker; otherwise the per-key dispatch with the
configured warn_days and the current date. -/
def native_value (data : Option JVal) (key : String) (warn_days : Int) (today : DateM) : PyVal :=
  match data with
  | some (JVal.obj o) =>
    if isStrV (jget o "_error") "not_found" then PyVal.pnone
    else nvDispatch o key warn_days today
  | _ => PyVal.pnone

/-- The non-error branch of DvsaMotSensor.extra_state_attributes: the
attribute dict in insertion order, with None values dropped at the end. -/
def fullAttrs (o : JObj) (reg : String) (today : DateM) : List (String × PyVal) :=
  let due := _extract_current_due_date o
  let latest := _extract_latest_test o
  let lo := _latest_odometer o
  let av := _avg_annual_since_registration o today
  let base : List (String × PyVal) :=
    [("registration", jvalToPy (pyOr (jget o "registration") (JVal.str reg))),
     ("make", jvalToPy (jget o "make")),
     ("model", jvalToPy (jget o "model")),
     ("fuelType", jvalToPy (jget o "fuelType")),
     ("primaryColour", jvalToPy (jget o "primaryColour")),
     ("secondaryColour", jvalToPy (jget o "secondaryColour")),
     ("engineSize", jvalToPy (jget o "engineSize")),
     ("registrationDate", jvalToPy (jget o "registrationDate")),
     ("manufactureDate", jvalToPy (jget o "manufactureDate")),
     ("mot_due_date", optStr (due.map DateM.isoformat)),
     ("hasOutstandingRecall", jvalToPy (jget o "hasOutstandingRecall")),
     ("latest_odometer", optFloat lo.1),
     ("latest_odometer_unit", optStr lo.2.1),
     ("latest_odometer_as_of", optStr (lo.2.2.map DateM.isoformat))]
  let withAvg :=
    base ++
      (match av.1 with
       | some _ =>
         (match av.2.1 with
          | some u => [("avg_annual_mileage_unit", PyVal.pstr (u ++ "/yr"))]
          | none => []) ++ [("avg_annual_mileage_raw", PyVal.pobj av.2.2)]
       | none => [])
  let withLatest :=
    withAvg ++
      (match latest with
       | some t =>
         [("last_test_result", jvalToPy (jget t "testResult")),
          ("last_test_expiry", jvalToPy (jget t "expiryDate")),
          ("last_test_odometer", jvalToPy (jget t "odometerValue")),
          ("last_test_odometer_unit", jvalToPy (jget t "odometerUnit")),
          ("last_test_odometer_result_type", jvalToPy (jget t "odometerResultType")),
          ("last_test_number", jvalToPy (jget t "motTestNumber"))]
       | none => [])
  withLatest.filter (fun kv => !(isNonePy kv.2))

/-- Model of DvsaMotSensor.extra_state_attributes in
custom_components/dvsa_mot/sensor.py: a dict holding only the error marker
when the entry carries a truthy _error, None when the entry is absent or not
a dict, the full attribute dict otherwise. -/
def extra_state_attributes (data : Option JVal) (reg : String) (today : DateM) :
    Option (List (String × PyVal)) :=
  match data with
  | some (JVal.obj o) =>
    if (jget o "_error").truthy then some [("error", jvalToPy (jget o "_error"))]
    else some (fullAttrs o reg today)
  | _ => none

end CCSensor

/-- Generic two-or-one digit strptime field (the CPython directive regexes
for month, day, hour, minute, second): a two-digit value in the given range,
or a single digit (required nonzero for month and day). -/
def parseTwoOrOne (minTwo maxTwo : Nat) (singleNonzero : Bool) : List Char → Option (Nat × List Char)
  | [] => none
  | [a] =>
    if isDigitC a ∧ (if singleNonzero then 1 ≤ dv a else True) then some (dv a, []) else none
  | a :: b :: rest =>
    if isDigitC a ∧ isDigitC b then
      (if minTwo ≤ 10 * dv a + dv b ∧ 10 * dv a + dv b ≤ maxTwo then
        some (10 * dv a + dv b, rest)
      else none)
    else if isDigitC a ∧ (if singleNonzero then 1 ≤ dv a else True) then some (dv a, b :: rest)
    else none

/-- Model of datetime.strptime(cs, fmt).date() for the four formats tried by
the last_test_date branch of src/sensor.py: year dash-or-dot month
dash-or-dot day, optionally followed by space HH:MM:SS; the whole input must
be consumed and the date components must form a representable date. -/
def strptimeDateFmt (sep : Char) (withTime : Bool) (cs : List Char) : Option DateM :=
  match parse4 cs with
  | none => none
  | some (yy, r1) =>
    match expectC sep r1 with
    | none => none
    | some r2 =>
      match parseTwoOrOne 1 12 true r2 with
      | none => none
      | some (mo, r3) =>
        match expectC sep r3 with
        | none => none
        | some r4 =>
          match parseTwoOrOne 1 31 true r4 with
          | none => none
          | some (dd, r5) =>
            let consumed :=
              if withTime then
                match expectC ' ' r5 with
                | none => none
                | some r6 =>
                  match parseTwoOrOne 0 23 false r6 with
                  | none => none
                  | some (_, r7) =>
                    match expectC ':' r7 with
                    | none => none
                    | some r8 =>
                      match parseTwoOrOne 0 59 false r8 with
                      | none => none
                      | some (_, r9) =>
                        match expectC ':' r9 with
                        | none => none
                        | some r10 =>
                          match parseTwoOrOne 0 59 false r10 with
                          | none => none
                          | some (_, r11) => some r11
              else some r5
            match consumed with
            | some [] => mkValidDate (yy : Int) (mo : Int) (dd : Int)
            | _ => none

namespace SrcSensor

/-- Model of _parse_date in src/sensor.py: falsy values and non-strings give
None, a string is truncated to its first 10 characters and parsed with
strptime format %Y-%m-%d (the isinstance(date) branch cannot trigger on
decoded JSON input and is omitted). -/
def _parse_date (value : JVal) : Option DateM :=
  if !value.truthy then none
  else
    match value with
    | JVal.str s => strptimeYMD (s.data.take 10)
    | _ => none

/-- The list iterated by the fallback loop of _extract_current_due_date in
src/sensor.py: vehicle.get("motTests") or []. The entries are not filtered
to dicts; the loop would raise AttributeError on a non-dict entry, so the
theorems below restrict to dict entries. -/
def motTestsList (vehicle : JObj) : List JVal :=
  match pyOr (jget vehicle "motTests") (JVal.arr []) with
  | JVal.arr xs => xs
  | _ => []

/-- The fold of the fallback loop: keep the largest parsed expiryDate. -/
def bestExpiry (best : Option DateM) (t : JVal) : Option DateM :=
  match _parse_date (jgetV t "expiryDate") with
  | none => best
  | some exp =>
    match best with
    | none => some exp
    | some b => if b.toDays < exp.toDays then some exp else some b

/-- Model of _extract_current_due_date in src/sensor.py: the parsed
top-level motTestDueDate if present, else the maximum parsed expiryDate over
the raw history entries. -/
def _extract_current_due_date (vehicle : JObj) : Option DateM :=
  match _parse_date (jget vehicle "motTestDueDate") with
  | some due => some due
  | none => (motTestsList vehicle).foldl bestExpiry none

/-- The key closure of _extract_latest_test in src/sensor.py:
str(completedDate or completedDateTime or empty string). -/
def keyStr (t : JVal) : String :=
  pyStr (pyOr (pyOr (jgetV t "completedDate") (jgetV t "completedDateTime")) (JVal.str ""))

/-- Model of _extract_latest_test in src/sensor.py: None on an empty or
missing motTests, else the head of the entries stably sorted descending by
the string key. -/
def _extract_latest_test (vehicle : JObj) : Option JVal :=
  let mot_tests := motTestsList vehicle
  if mot_tests.isEmpty then none
  else (sortStable (fun a b => decide (keyStr b ≤ keyStr a)) mot_tests).head?

/-- Model of DvsaMotSensor.available in src/sensor.py (same body as the
custom_components variant). -/
def available (data : Option JVal) : Bool :=
  match data with
  | some (JVal.obj o) => !(isStrV (jget o "_error") "api_error")
  | _ => false

/-- The completedDate string parsing of the last_test_date branch in
src/sensor.py: each format is tried on cd truncated to the length of the
format string itself (8 characters for the date-only formats, 17 with
time). -/
def lastTestDateValue (cd : List Char) : Option DateM :=
  match strptimeDateFmt '-' false (cd.take 8) with
  | some d => some d
  | none =>
    match strptimeDateFmt '.' false (cd.take 8) with
    | some d => some d
    | none =>
      match strptimeDateFmt '-' true (cd.take 17) with
      | some d => some d
      | none => strptimeDateFmt '.' true (cd.take 17)

/-- The per-key dispatch of DvsaMotSensor.native_value in src/sensor.py
after the guard. -/
def nvDispatch (o : JObj) (key : String) (warn_days : Int) (today : DateM) : PyVal :=
  let due := _extract_current_due_date o
  let latest := _extract_latest_test o
  if key = "due_date" then optDate due
  else if key = "days_remaining" then
    match due with
    | some d => PyVal.pint (d.toDays - today.toDays)
    | none => PyVal.pnone
  else if key = "status" then
    match due with
    | none => PyVal.pstr "unknown"
    | some d =>
      if d.toDays < today.toDays then PyVal.pstr "expired"
      else if d.toDays - today.toDays ≤ warn_days then PyVal.pstr "expires_soon"
      else PyVal.pstr "valid"
  else if key = "last_result" then
    match latest with
    | some t => jvalToPy (jgetV t "testResult")
    | none => PyVal.pnone
  else if key = "last_test_date" then
    match latest with
    | none => PyVal.pnone
    | some t =>
      match pyOr (jgetV t "completedDate") (jgetV t "completedDateTime") with
      | JVal.str s => if s = "" then PyVal.pnone else optDate (lastTestDateValue s.data)
      | _ => PyVal.pnone
  else if key = "make_model" then
    let mk := jget o "make"
    let md := jget o "model"
    if mk.truthy && md.truthy then PyVal.pstr (pyStr mk ++ " " ++ pyStr md)
    else jvalToPy (pyOr mk md)
  else PyVal.pnone

/-- Model of DvsaMotSensor.native_value in src/sensor.py. -/
def native_value (data : Option JVal) (key : String) (warn_days : Int) (today : DateM) : PyVal :=
  match data with
  | some (JVal.obj o) =>
    if isStrV (jget o "_error") "not_found" then PyVal.pnone
    else nvDispatch o key warn_days today
  | _ => PyVal.pnone

/-- The non-error branch of DvsaMotSensor.extra_state_attributes in
src/sensor.py. -/
def fullAttrs (o : JObj) (reg : String) : List (String × PyVal) :=
  let due := _extract_current_due_date o
  let latest := _extract_latest_test o
  let base : List (String × PyVal) :=
    [("registration", jvalToPy (pyOr (jget o "registration") (JVal.str reg))),
     ("make", jvalToPy (jget o "make")),
     ("model", jvalToPy (jget o "model")),
     ("fuelType", jvalToPy (jget o "fuelType")),
     ("primaryColour", jvalToPy (jget o "primaryColour")),
     ("registrationDate", jvalToPy (jget o "registrationDate")),
     ("manufactureDate", jvalToPy (jget o "manufactureDate")),
     ("mot_due_date", optStr (due.map DateM.isoformat)),
     ("hasOutstandingRecall", jvalToPy (jget o "hasOutstandingRecall"))]
  let withLatest :=
    base ++
      (match latest with
       | some t =>
         [("last_test_result", jvalToPy (jgetV t "testResult")),
          ("last_test_expiry", jvalToPy (jgetV t "expiryDate")),
          ("last_test_odometer", jvalToPy (jgetV t "odometerValue")),
          ("last_test_odometer_unit", jvalToPy (jgetV t "odometerUnit")),
          ("last_test_number", jvalToPy (jgetV t "motTestNumber"))]
       | none => [])
  withLatest.filter (fun kv => !(isNonePy kv.2))

/-- Model of DvsaMotSensor.extra_state_attributes in src/sensor.py. -/
def extra_state_attributes (data : Option JVal) (reg : String) :
    Option (List (String × PyVal)) :=
  match data with
  | some (JVal.obj o) =>
    if (jget o "_error").truthy then some [("error", jvalToPy (jget o "_error"))]
    else some (fullAttrs o reg)
  | _ => none

end SrcSensor

namespace BinSensor

/-- Model of DvsaMotBinarySensor.available in
custom_components/dvsa_mot/binary_sensor.py (same body as the sensor
variant). -/
def available (data : Option JVal) : Bool :=
  match data with
  | some (JVal.obj o) => !(isStrV (jget o "_error") "api_error")
  | _ => false

/-- Model of DvsaMotBinarySensor.is_on in
custom_components/dvsa_mot/binary_sensor.py for its single description key
recall_status: None when the entry is absent, not a dict, or the not_found
marker; else string values compare lower-cased against true, other values
use truthiness (bool()). -/
def is_on (data : Option JVal) (key : String) : Option Bool :=
  match data with
  | some (JVal.obj o) =>
    if isStrV (jget o "_error") "not_found" then none
    else if key = "recall_status" then
      some
        (match jget o "hasOutstandingRecall" with
         | JVal.str s => String.mk (s.data.map pyLowerChar) = "true"
         | v => v.truthy)
    else none
  | _ => none

end BinSensor

namespace TwoPoint

/-- Modelled from the spec: annual_mileage_two_point (spec section 4.4) is
described by the spec but absent from src/ (only the since-registration
estimator exists there). Scans sorted_tests for the usable readings: an
entry is usable when its odometer reading parses as a number, its
odometerResultType flag equals OK, its unit lower-cases to mi or km, and its
completion timestamp parses to a date (needed for the day gap). Returns
(value, unit, completion date). -/
def usableReading (t : JObj) : Option (Rat × String × DateM) :=
  match pyFloat (jget t "odometerValue") with
  | none => none
  | some val =>
    let unit := String.mk (stripList ((pyStr (pyOr (jget t "odometerUnit") (JVal.str ""))).data.map pyLowerChar))
    if isStrV (jget t "odometerResultType") "OK" ∧ (unit = "mi" ∨ unit = "km") then
      match CCSensor._parse_date (pyOr (jget t "completedDate") (jget t "completedDateTime")) with
      | some d => some (val, unit, d)
      | none => none
    else none

/-- Modelled from the spec: annual_mileage_two_point takes the two most
recent usable readings from sorted_tests, requires equal units, a positive
whole-day gap and a positive distance delta, and estimates
(newer - older) / elapsed_days * 365.25; otherwise there is no estimate. -/
def annual_mileage_two_point (vehicle : JObj) : Option Rat :=
  match (CCSensor._sorted_tests vehicle).filterMap usableReading with
  | r1 :: r2 :: _ =>
    let days := r1.2.2.toDays - r2.2.2.toDays
    if r1.2.1 = r2.2.1 ∧ 0 < days ∧ 0 < r1.1 - r2.1 then
      some ((r1.1 - r2.1) / (days : Rat) * 365.25)
    else none
  | _ => none

end TwoPoint

theorem updateLoop_error_of_auth (lookup : String → LookupRes) (l : List String)
    (r m : String) (h1 : r ∈ l) (h2 : lookup r = LookupRes.authErr m) :
    ∃ e, DvsaMotDataUpdateCoordinator.updateLoop lookup l = Except.error e := by
  induction l with
  | nil => cases h1
  | cons r0 rs ih =>
    rcases List.mem_cons.mp h1 with rfl | hmem
    · refine ⟨"Authentication failed: " ++ m, ?_⟩
      simp only [DvsaMotDataUpdateCoordinator.updateLoop, h2]
    · cases heq : lookup r0 with
      | authErr m0 =>
        exact ⟨"Authentication failed: " ++ m0, by
          simp only [DvsaMotDataUpdateCoordinator.updateLoop, heq]⟩
      | success p =>
        rcases ih hmem with ⟨e, he⟩
        exact ⟨e, by simp only [DvsaMotDataUpdateCoordinator.updateLoop, heq, he, Except.map]⟩
      | notFound m0 =>
        rcases ih hmem with ⟨e, he⟩
        exact ⟨e, by simp only [DvsaMotDataUpdateCoordinator.updateLoop, heq, he, Except.map]⟩
      | apiErr m0 =>
        rcases ih hmem with ⟨e, he⟩
        exact ⟨e, by simp only [DvsaMotDataUpdateCoordinator.updateLoop, heq, he, Except.map]⟩
      | unexpected m0 =>
        rcases ih hmem with ⟨e, he⟩
        exact ⟨e, by simp only [DvsaMotDataUpdateCoordinator.updateLoop, heq, he, Except.map]⟩

theorem updateGather_error_of_auth (lookup : String → LookupRes) (l : List String)
    (r m : String) (h1 : r ∈ l) (h2 : lookup r = LookupRes.authErr m) :
    ∃ e, DvsaMotCoordinator.updateGather lookup l = Except.error e := by
  induction l with
  | nil => cases h1
  | cons r0 rs ih =>
    rcases List.mem_cons.mp h1 with rfl | hmem
    · exact ⟨"Auth error: " ++ m, by simp only [DvsaMotCoordinator.updateGather, h2]⟩
    · cases heq : lookup r0 with
      | authErr m0 =>
        exact ⟨"Auth error: " ++ m0, by simp only [DvsaMotCoordinator.updateGather, heq]⟩
      | unexpected m0 =>
        exact ⟨m0, by simp only [DvsaMotCoordinator.updateGather, heq]⟩
      | success p =>
        rcases ih hmem with ⟨e, he⟩
        exact ⟨e, by simp only [DvsaMotCoordinator.updateGather, heq, he, Except.map]⟩
      | notFound m0 =>
        rcases ih hmem with ⟨e, he⟩
        exact ⟨e, by simp only [DvsaMotCoordinator.updateGather, heq, he, Except.map]⟩
      | apiErr m0 =>
        rcases ih hmem with ⟨e, he⟩
        exact ⟨e, by simp only [DvsaMotCoordinator.updateGather, heq, he, Except.map]⟩

theorem updateLoop_ok_of_noauth (lookup : String → LookupRes) (l : List String)
    (h : ∀ r ∈ l, ∀ m, lookup r ≠ LookupRes.authErr m) :
    DvsaMotDataUpdateCoordinator.updateLoop lookup l
      = Except.ok (l.map (fun r => (r, DvsaMotDataUpdateCoordinator.entryFor (lookup r)))) := by
  induction l with
  | nil => rfl
  | cons r0 rs ih =>
    have htail := ih (fun r hr m => h r (List.mem_cons_of_mem r0 hr) m)
    have hhead := h r0 (List.mem_cons_self r0 rs)
    cases heq : lookup r0 with
    | authErr m0 => exact absurd heq (hhead m0)
    | success p =>
      simp only [DvsaMotDataUpdateCoordinator.updateLoop, heq, htail, Except.map, List.map_cons]
    | notFound m0 =>
      simp only [DvsaMotDataUpdateCoordinator.updateLoop, heq, htail, Except.map, List.map_cons]
    | apiErr m0 =>
      simp only [DvsaMotDataUpdateCoordinator.updateLoop, heq, htail, Except.map, List.map_cons]
    | unexpected m0 =>
      simp only [DvsaMotDataUpdateCoordinator.updateLoop, heq, htail, Except.map, List.map_cons]

/-- C1: the spec says a NotFoundError (HTTP 404) lookup yields the snapshot
entry with the not_found marker and other ApiErrors yield the api_error
marker. The top-level src/coordinator.py does exactly that, but the
custom_components coordinator has no MotNotFoundError handler: the subclass
is caught by its MotApiError clause, so the failing input (a 404 lookup)
produces the api_error marker instead of not_found there. This theorem
evaluates both coordinators at that input. -/
theorem C1_notfound_eval :
    DvsaMotCoordinator._async_update_data ["AB12CDE"]
        (fun _ => LookupRes.notFound "Vehicle not found")
      = Except.ok [("AB12CDE", JVal.obj [("_error", JVal.str "not_found")])]
  ∧ DvsaMotDataUpdateCoordinator._async_update_data ["AB12CDE"]
        (fun _ => LookupRes.notFound "Vehicle not found")
      = Except.ok [("AB12CDE", JVal.obj [("_error", JVal.str "api_error")])]
  ∧ isStrV (jget [("_error", JVal.str "api_error")] "_error") "not_found" = false
  ∧ isStrV (jget [("_error", JVal.str "not_found")] "_error") "not_found" = true :=
  ⟨rfl, rfl, rfl, rfl⟩

/-- C2: when any tracked vehicle produces an AuthError, both coordinators
raise UpdateFailed (the cycle fails, surfaced to the scheduler), and the
host retains the previous snapshot unchanged, so no entry from the aborted
cycle becomes visible. -/
theorem C2_auth_aborts (prev : List (String × JVal)) (regs : List String)
    (lookup : String → LookupRes) (r m : String)
    (h1 : r ∈ DvsaMotDataUpdateCoordinator._get_registrations regs)
    (h2 : r ∈ DvsaMotCoordinator.initRegistrations regs)
    (h3 : lookup r = LookupRes.authErr m) :
    (∃ e, DvsaMotDataUpdateCoordinator._async_update_data regs lookup = Except.error e)
  ∧ (∃ e, DvsaMotCoordinator._async_update_data regs lookup = Except.error e)
  ∧ applyCycle prev (DvsaMotDataUpdateCoordinator._async_update_data regs lookup) = prev
  ∧ applyCycle prev (DvsaMotCoordinator._async_update_data regs lookup) = prev := by
  have e1 := updateLoop_error_of_auth lookup (DvsaMotDataUpdateCoordinator._get_registrations regs) r m h1 h3
  have e2 := updateGather_error_of_auth lookup (DvsaMotCoordinator.initRegistrations regs) r m h2 h3
  refine ⟨e1, e2, ?_, ?_⟩
  · rcases e1 with ⟨e, he⟩
    simp only [DvsaMotDataUpdateCoordinator._async_update_data] at *
    rw [he]
    rfl
  · rcases e2 with ⟨e, he⟩
    simp only [DvsaMotCoordinator._async_update_data] at *
    rw [he]
    rfl

/-- Witness for C2 at a concrete two-vehicle cycle where the second vehicle
hits an AuthError. -/
theorem C2_auth_aborts_witness :
    applyCycle [("OLD", JVal.str "kept")]
        (DvsaMotDataUpdateCoordinator._async_update_data ["AA11AAA", "BB22BBB"]
          (fun r => if r = "BB22BBB" then LookupRes.authErr "401"
                    else LookupRes.success (JVal.obj [("make", JVal.str "FORD")])))
      = [("OLD", JVal.str "kept")] :=
  (C2_auth_aborts [("OLD", JVal.str "kept")] ["AA11AAA", "BB22BBB"] _ "BB22BBB" "401"
    (by decide) (by decide) (by rfl)).2.2.1

/-- C4: the spec says an unexpected (untyped) exception during one vehicle
lookup is downgraded to an api_error marker for that vehicle and never
prevents the other vehicles from being updated. src/coordinator.py has no
bare except clause, so an unexpected exception propagates out of
asyncio.gather and aborts the whole cycle: here the second vehicle never
gets an entry. -/
theorem C4_counterexample :
    DvsaMotCoordinator._async_update_data ["AA11AAA", "BB22BBB"]
        (fun r => if r = "AA11AAA" then LookupRes.unexpected "boom"
                  else LookupRes.success (JVal.obj [("make", JVal.str "FORD")]))
      = Except.error "boom" := by rfl

/-- C4 amended: in the custom_components coordinator an unexpected exception
is caught and recorded as the api_error marker with the exception text as
detail, and, absent auth errors, every vehicle entry is a function of its
own lookup outcome alone; in src/coordinator.py the unexpected exception
aborts the cycle instead. -/
theorem C4_unexpected_isolated (regs : List String) (lookup : String → LookupRes)
    (hnoauth : ∀ r, ∀ m, lookup r ≠ LookupRes.authErr m) :
    DvsaMotDataUpdateCoordinator._async_update_data regs lookup
      = Except.ok ((DvsaMotDataUpdateCoordinator._get_registrations regs).map
          (fun r => (r, DvsaMotDataUpdateCoordinator.entryFor (lookup r))))
  ∧ (∀ m, DvsaMotDataUpdateCoordinator.entryFor (LookupRes.unexpected m)
      = JVal.obj [("_error", JVal.str "api_error"), ("detail", JVal.str m)]) :=
  ⟨updateLoop_ok_of_noauth lookup _ (fun r _ m => hnoauth r m), fun _ => rfl⟩

/-- Witness for C4 amended at a concrete cycle: one vehicle fails with an
unexpected exception, the other two get their own entries. -/
theorem C4_unexpected_isolated_witness :
    DvsaMotDataUpdateCoordinator._async_update_data ["AA11AAA", "BB22BBB", "CC33CCC"]
        (fun r => if r = "BB22BBB" then LookupRes.unexpected "boom"
                  else LookupRes.success (JVal.obj [("make", JVal.str "FORD")]))
      = Except.ok
          [("AA11AAA", JVal.obj [("make", JVal.str "FORD")]),
           ("BB22BBB", JVal.obj [("_error", JVal.str "api_error"), ("detail", JVal.str "boom")]),
           ("CC33CCC", JVal.obj [("make", JVal.str "FORD")])] := by
  have h := (C4_unexpected_isolated ["AA11AAA", "BB22BBB", "CC33CCC"]
    (fun r => if r = "BB22BBB" then LookupRes.unexpected "boom"
              else LookupRes.success (JVal.obj [("make", JVal.str "FORD")]))
    (fun r m => by by_cases hr : r = "BB22BBB" <;> simp [hr])).1
  rw [h]
  rfl

/-- C3 counterexample: the claim asserts every returned token expires more
than 60 seconds after return time; a refresh whose response carries
expires_in of 0 returns a token already at its expiry. -/
theorem C3_counterexample :
    DvsaMotClient._get_token none 0 (TokenNet.resp 200 ⟨some "t", some 0⟩)
      = (Except.ok "t", some ⟨"t", 0⟩, true)
  ∧ ¬ (60 < (0 : Int) - 0) :=
  ⟨rfl, by decide⟩

/-- C3 amended: a cached token whose expiry is more than 60 seconds away is
returned unchanged with no network call; otherwise a refresh request is
issued, and a successful refresh returns the fresh token and installs it
with expiry now + expires_in (3600 when absent), regardless of how small
expires_in is. -/
theorem C3_token_cache (cached : Option Token) (now : Int) (net : TokenNet) :
    (∀ t, cached = some t → 60 < t.expires_at - now →
        DvsaMotClient._get_token cached now net = (Except.ok t.access_token, some t, false))
  ∧ ((∀ t, cached = some t → ¬ 60 < t.expires_at - now) →
        (DvsaMotClient._get_token cached now net).2.2 = true)
  ∧ ((∀ t, cached = some t → ¬ 60 < t.expires_at - now) → ∀ p s,
        net = TokenNet.resp 200 p → p.access_token = some s → ¬ s = "" →
        DvsaMotClient._get_token cached now net
          = (Except.ok s, some ⟨s, now + p.expires_in.getD 3600⟩, true)) := by
  have hrefresh : ∀ p s, net = TokenNet.resp 200 p → p.access_token = some s → ¬ s = "" →
      DvsaMotClient._get_token.refreshStep cached now net
        = (Except.ok s, some ⟨s, now + p.expires_in.getD 3600⟩, true) := by
    intro p s hnet hat hs
    subst hnet
    simp only [DvsaMotClient._get_token.refreshStep, hat]
    norm_num
    exact fun h => absurd h hs
  have hrefnet : (DvsaMotClient._get_token.refreshStep cached now net).2.2 = true := by
    cases net with
    | clientError m => rfl
    | resp status payload =>
      simp only [DvsaMotClient._get_token.refreshStep]
      split_ifs <;> (try rfl) <;> (cases payload.access_token <;> simp <;> split_ifs <;> rfl)
  cases cached with
  | none =>
    refine ⟨(fun t ht => nomatch ht), fun _ => ?_, fun _ p s hnet hat hs => ?_⟩
    · simpa [DvsaMotClient._get_token] using hrefnet
    · simpa [DvsaMotClient._get_token] using hrefresh p s hnet hat hs
  | some t0 =>
    by_cases hfresh : 60 < t0.expires_at - now
    · refine ⟨fun t ht => ?_, fun hstale => ?_, fun hstale p s hnet hat hs => ?_⟩
      · cases ht
        intro _
        simp [DvsaMotClient._get_token, hfresh]
      · exact absurd hfresh (hstale t0 rfl)
      · exact absurd hfresh (hstale t0 rfl)
    · refine ⟨fun t ht => ?_, fun _ => ?_, fun _ p s hnet hat hs => ?_⟩
      · cases ht
        intro hc
        exact absurd hc hfresh
      · simpa [DvsaMotClient._get_token, hfresh] using hrefnet
      · simpa [DvsaMotClient._get_token, hfresh] using hrefresh p s hnet hat hs

/-- Witness for C3 amended: a stale cached token is replaced by the freshly
fetched one, with expiry now + expires_in; and a fresh cached token is
returned without a network call. -/
theorem C3_token_cache_witness :
    DvsaMotClient._get_token (some ⟨"old", 50⟩) 0 (TokenNet.resp 200 ⟨some "new", some 7200⟩)
      = (Except.ok "new", some ⟨"new", 7200⟩, true)
  ∧ DvsaMotClient._get_token (some ⟨"fresh", 500⟩) 0 (TokenNet.resp 200 ⟨some "x", some 7200⟩)
      = (Except.ok "fresh", some ⟨"fresh", 500⟩, false) := by
  constructor
  · have h := (C3_token_cache (some ⟨"old", 50⟩) 0 (TokenNet.resp 200 ⟨some "new", some 7200⟩)).2.2
      (fun t ht => by cases ht; decide) ⟨some "new", some 7200⟩ "new" rfl rfl (by decide)
    simpa using h
  · have h := (C3_token_cache (some ⟨"fresh", 500⟩) 0 (TokenNet.resp 200 ⟨some "x", some 7200⟩)).1
      ⟨"fresh", 500⟩ rfl (by decide)
    simpa using h

/-- First-occurrence deduplication, stated directly: keep the head, drop its
later duplicates, recurse. -/
def dedupFirstSpec : List String → List String
  | [] => []
  | x :: xs => x :: dedupFirstSpec (xs.filter (fun y => !(y = x)))
termination_by l => l.length
decreasing_by
  exact Nat.lt_succ_of_le (List.length_filter_le _ _)

theorem dedupeSeen_eq_dedupFirstSpec (l : List String) (seen : List String) :
    DvsaMotDataUpdateCoordinator.dedupeSeen l seen
      = dedupFirstSpec (l.filter (fun y => !(decide (y ∈ seen)))) := by
  induction l generalizing seen with
  | nil => simp [DvsaMotDataUpdateCoordinator.dedupeSeen, dedupFirstSpec]
  | cons x xs ih =>
    by_cases hx : x ∈ seen
    · rw [DvsaMotDataUpdateCoordinator.dedupeSeen, if_pos hx,
        List.filter_cons_of_neg (by simp [hx]), ih]
    · have hfil : xs.filter (fun y => !(decide (y ∈ x :: seen)))
          = (xs.filter (fun y => !(decide (y ∈ seen)))).filter (fun y => !(y = x)) := by
        rw [List.filter_filter]
        refine List.filter_congr ?_
        intro y _
        by_cases hyx : y = x <;> by_cases hys : y ∈ seen <;>
          simp [hyx, hys, List.mem_cons]
      rw [DvsaMotDataUpdateCoordinator.dedupeSeen, if_neg hx,
        List.filter_cons_of_pos (by simp [hx]), dedupFirstSpec, ih (x :: seen), hfil]

theorem mem_dedupFirstSpec (l : List String) (y : String) :
    y ∈ dedupFirstSpec l ↔ y ∈ l := by
  induction l using dedupFirstSpec.induct with
  | case1 => simp [dedupFirstSpec]
  | case2 x xs ih =>
    rw [dedupFirstSpec]
    constructor
    · intro hy
      rcases List.mem_cons.mp hy with rfl | hy
      · exact List.mem_cons_self _ _
      · rcases List.mem_filter.mp (ih.mp hy) with ⟨hmem, _⟩
        exact List.mem_cons_of_mem _ hmem
    · intro hy
      rcases List.mem_cons.mp hy with rfl | hy
      · exact List.mem_cons_self _ _
      · by_cases hyx : y = x
        · exact hyx ▸ List.mem_cons_self _ _
        · refine List.mem_cons_of_mem _ (ih.mpr ?_)
          exact List.mem_filter.mpr ⟨hy, by simp [hyx]⟩

theorem dedupFirstSpec_nodup (l : List String) : (dedupFirstSpec l).Nodup := by
  induction l using dedupFirstSpec.induct with
  | case1 => simp [dedupFirstSpec]
  | case2 x xs ih =>
    rw [dedupFirstSpec]
    refine List.nodup_cons.mpr ⟨?_, ih⟩
    intro hx
    rcases List.mem_filter.mp ((mem_dedupFirstSpec _ _).mp hx) with ⟨_, hne⟩
    simp at hne

/-- C7 counterexample: the claim asserts the tracked list never holds the
same normalized identifier twice, but src/coordinator.py only normalizes and
filters empties, keeping duplicates. -/
theorem C7_counterexample :
    DvsaMotCoordinator.initRegistrations ["AB12CDE", "ab12cde", "XY99ZZZ"]
      = ["AB12CDE", "AB12CDE", "XY99ZZZ"]
  ∧ ¬ (["AB12CDE", "AB12CDE", "XY99ZZZ"] : List String).Nodup :=
  ⟨rfl, by decide⟩

/-- C7 amended: the custom_components _get_registrations normalizes, drops
empties and deduplicates preserving first-seen order - it equals the
canonical first-occurrence deduplication of the cleaned list, has no
duplicates, keeps exactly the cleaned identifiers, and maps the spec example
to its expected output; src/coordinator.py keeps duplicates. -/
theorem C7_dedupe (regs : List String) :
    DvsaMotDataUpdateCoordinator._get_registrations regs
      = dedupFirstSpec (DvsaMotDataUpdateCoordinator.cleanedRegs regs)
  ∧ (DvsaMotDataUpdateCoordinator._get_registrations regs).Nodup
  ∧ (∀ y, y ∈ DvsaMotDataUpdateCoordinator._get_registrations regs
      ↔ y ∈ DvsaMotDataUpdateCoordinator.cleanedRegs regs)
  ∧ DvsaMotDataUpdateCoordinator._get_registrations ["AB12CDE", "ab12cde", "XY99ZZZ"]
      = ["AB12CDE", "XY99ZZZ"] := by
  have hkey : DvsaMotDataUpdateCoordinator._get_registrations regs
      = dedupFirstSpec (DvsaMotDataUpdateCoordinator.cleanedRegs regs) := by
    rw [DvsaMotDataUpdateCoordinator._get_registrations, dedupeSeen_eq_dedupFirstSpec]
    congr 1
    refine (List.filter_eq_self.mpr ?_)
    intro y _
    simp
  refine ⟨hkey, ?_, ?_, by rfl⟩
  · rw [hkey]
    exact dedupFirstSpec_nodup _
  · intro y
    rw [hkey]
    exact mem_dedupFirstSpec _ y

/-- The value of the status branch shared verbatim by both sensor modules,
as a function of the resolved due date. -/
def statusOf (due : Option DateM) (warn : Int) (today : DateM) : PyVal :=
  match due with
  | none => PyVal.pstr "unknown"
  | some d =>
    if d.toDays < today.toDays then PyVal.pstr "expired"
    else if d.toDays - today.toDays ≤ warn then PyVal.pstr "expires_soon"
    else PyVal.pstr "valid"

theorem nv_status_cc (o : JObj) (warn : Int) (today : DateM)
    (hguard : isStrV (jget o "_error") "not_found" = false) :
    CCSensor.native_value (some (JVal.obj o)) "status" warn today
      = statusOf (CCSensor._extract_current_due_date o) warn today := by
  simp only [CCSensor.native_value, hguard, Bool.false_eq_true, if_false,
    CCSensor.nvDispatch, String.reduceEq, if_false, if_true]
  cases hdue : CCSensor._extract_current_due_date o <;> simp [statusOf, hdue]

theorem nv_status_src (o : JObj) (warn : Int) (today : DateM)
    (hguard : isStrV (jget o "_error") "not_found" = false) :
    SrcSensor.native_value (some (JVal.obj o)) "status" warn today
      = statusOf (SrcSensor._extract_current_due_date o) warn today := by
  simp only [SrcSensor.native_value, hguard, Bool.false_eq_true, if_false,
    SrcSensor.nvDispatch, String.reduceEq, if_false, if_true]
  cases hdue : SrcSensor._extract_current_due_date o <;> simp [statusOf, hdue]

theorem statusOf_spec (warn : Int) (today : DateM) (hw : 0 ≤ warn) :
    statusOf none warn today = PyVal.pstr "unknown"
  ∧ ∀ d : DateM,
      (statusOf (some d) warn today = PyVal.pstr "expired" ↔ d.toDays < today.toDays)
    ∧ (statusOf (some d) warn today = PyVal.pstr "expires_soon"
        ↔ 0 ≤ d.toDays - today.toDays ∧ d.toDays - today.toDays ≤ warn)
    ∧ (statusOf (some d) warn today = PyVal.pstr "valid" ↔ warn < d.toDays - today.toDays) := by
  refine ⟨rfl, fun d => ?_⟩
  simp only [statusOf]
  split_ifs with h1 h2 <;>
    simp only [PyVal.pstr.injEq, String.reduceEq, true_iff, false_iff, iff_true, iff_false,
      not_and, not_le, not_lt] <;>
    omega

/-- C5: for both sensor modules, with the respective resolved due date and
any warn_days at least 0: the status is unknown when no due date resolves;
expired exactly when the due date is strictly before today; expires_soon
exactly when the due date is between today and today + warn_days inclusive;
valid exactly beyond the warn window; a due date equal to today is not
expired and is expires_soon. -/
theorem C5_status (o : JObj) (warn : Int) (today : DateM) (hw : 0 ≤ warn)
    (hguard : isStrV (jget o "_error") "not_found" = false) :
    ((CCSensor._extract_current_due_date o = none →
        CCSensor.native_value (some (JVal.obj o)) "status" warn today = PyVal.pstr "unknown")
      ∧ ∀ due, CCSensor._extract_current_due_date o = some due →
          (CCSensor.native_value (some (JVal.obj o)) "status" warn today = PyVal.pstr "expired"
            ↔ due.toDays < today.toDays)
        ∧ (CCSensor.native_value (some (JVal.obj o)) "status" warn today = PyVal.pstr "expires_soon"
            ↔ 0 ≤ due.toDays - today.toDays ∧ due.toDays - today.toDays ≤ warn)
        ∧ (CCSensor.native_value (some (JVal.obj o)) "status" warn today = PyVal.pstr "valid"
            ↔ warn < due.toDays - today.toDays)
        ∧ (due = today →
            CCSensor.native_value (some (JVal.obj o)) "status" warn today = PyVal.pstr "expires_soon"))
  ∧ ((SrcSensor._extract_current_due_date o = none →
        SrcSensor.native_value (some (JVal.obj o)) "status" warn today = PyVal.pstr "unknown")
      ∧ ∀ due, SrcSensor._extract_current_due_date o = some due →
          (SrcSensor.native_value (some (JVal.obj o)) "status" warn today = PyVal.pstr "expired"
            ↔ due.toDays < today.toDays)
        ∧ (SrcSensor.native_value (some (JVal.obj o)) "status" warn today = PyVal.pstr "expires_soon"
            ↔ 0 ≤ due.toDays - today.toDays ∧ due.toDays - today.toDays ≤ warn)
        ∧ (SrcSensor.native_value (some (JVal.obj o)) "status" warn today = PyVal.pstr "valid"
            ↔ warn < due.toDays - today.toDays)
        ∧ (due = today →
            SrcSensor.native_value (some (JVal.obj o)) "status" warn today = PyVal.pstr "expires_soon")) := by
  obtain ⟨hnone, hsome⟩ := statusOf_spec warn today hw
  constructor
  · rw [nv_status_cc o warn today hguard]
    refine ⟨fun h => by rw [h]; exact hnone, fun due hdue => ?_⟩
    rw [hdue]
    refine ⟨(hsome due).1, (hsome due).2.1, (hsome due).2.2, fun heq => ?_⟩
    subst heq
    exact (hsome due).2.1.mpr ⟨by omega, by omega⟩
  · rw [nv_status_src o warn today hguard]
    refine ⟨fun h => by rw [h]; exact hnone, fun due hdue => ?_⟩
    rw [hdue]
    refine ⟨(hsome due).1, (hsome due).2.1, (hsome due).2.2, fun heq => ?_⟩
    subst heq
    exact (hsome due).2.1.mpr ⟨by omega, by omega⟩

/-- Witness for C5 at a concrete payload: due date 2030-02-14, today
2030-01-20, warn_days 30; both sensor modules report expires_soon. -/
theorem C5_status_witness :
    CCSensor.native_value (some (JVal.obj [("motTestDueDate", JVal.str "2030-02-14")]))
        "status" 30 ⟨2030, 1, 20⟩ = PyVal.pstr "expires_soon"
  ∧ SrcSensor.native_value (some (JVal.obj [("motTestDueDate", JVal.str "2030-02-14")]))
        "status" 30 ⟨2030, 1, 20⟩ = PyVal.pstr "expires_soon" := by
  have h := C5_status [("motTestDueDate", JVal.str "2030-02-14")] 30 ⟨2030, 1, 20⟩
    (by decide) (by rfl)
  exact ⟨((h.1.2 ⟨2030, 2, 14⟩ (by rfl)).2.1).mpr (by decide),
         ((h.2.2 ⟨2030, 2, 14⟩ (by rfl)).2.1).mpr (by decide)⟩

/-- C10: a sensor or binary-sensor entity is available exactly when its
snapshot entry exists, is a dict, and does not carry the api_error marker
(all three available implementations agree); an entry that is exactly the
not_found marker keeps the entity available while its state value (sensor
native_value for every key, binary-sensor is_on) is None and its attributes
hold only the error marker. -/
theorem C10_availability :
    (∀ data : Option JVal,
        (CCSensor.available data = true
          ↔ ∃ o, data = some (JVal.obj o) ∧ isStrV (jget o "_error") "api_error" = false)
      ∧ SrcSensor.available data = CCSensor.available data
      ∧ BinSensor.available data = CCSensor.available data)
  ∧ CCSensor.available (some (JVal.obj [("_error", JVal.str "not_found")])) = true
  ∧ (∀ key warn today,
      CCSensor.native_value (some (JVal.obj [("_error", JVal.str "not_found")])) key warn today
        = PyVal.pnone)
  ∧ (∀ key warn today,
      SrcSensor.native_value (some (JVal.obj [("_error", JVal.str "not_found")])) key warn today
        = PyVal.pnone)
  ∧ BinSensor.is_on (some (JVal.obj [("_error", JVal.str "not_found")])) "recall_status" = none
  ∧ (∀ reg today,
      CCSensor.extra_state_attributes (some (JVal.obj [("_error", JVal.str "not_found")])) reg today
        = some [("error", PyVal.pstr "not_found")])
  ∧ (∀ reg,
      SrcSensor.extra_state_attributes (some (JVal.obj [("_error", JVal.str "not_found")])) reg
        = some [("error", PyVal.pstr "not_found")]) := by
  refine ⟨fun data => ⟨?_, ?_, ?_⟩, rfl, fun key warn today => rfl, fun key warn today => rfl,
    rfl, fun reg today => rfl, fun reg => rfl⟩
  · cases data with
    | none => simp [CCSensor.available]
    | some v => cases v <;> simp [CCSensor.available]
  · rfl
  · rfl

/-- The history entry of the C6 counterexample whose completion timestamp
does not parse but whose expiryDate does. -/
def testEntryA : JObj := [("completedDate", JVal.str "garbage"), ("expiryDate", JVal.str "2030-01-01")]

/-- A history entry with a parseable, older completion timestamp. -/
def testEntryB : JObj := [("completedDate", JVal.str "2020-01-01")]

/-- A vehicle payload holding the two entries above in order A, B. -/
def vehicleC6 : JObj := [("motTests", JVal.arr [JVal.obj testEntryA, JVal.obj testEntryB])]

/-- C6 counterexample: the claim says entries with unparseable completion
timestamps sort last; in the code they fall back to their parsed expiryDate
first, so entry A (unparseable completion, expiry 2030) sorts before entry B
(completion 2020) instead of last. -/
theorem C6_counterexample :
    CCSensor._sorted_tests vehicleC6 = [testEntryA, testEntryB]
  ∧ CCSensor._parse_dt (pyOr (jget testEntryA "completedDate") (jget testEntryA "completedDateTime"))
      = none
  ∧ CCSensor._parse_dt (jget testEntryA "expiryDate") = some ⟨⟨2030, 1, 1⟩, 0⟩
  ∧ CCSensor._parse_dt (pyOr (jget testEntryB "completedDate") (jget testEntryB "completedDateTime"))
      = some ⟨⟨2020, 1, 1⟩, 0⟩
  ∧ isStrV (jget testEntryA "completedDate") "garbage" = true
  ∧ isStrV (jget testEntryB "completedDate") "garbage" = false :=
  ⟨rfl, rfl, rfl, rfl, rfl, rfl⟩

/-- C6 amended: _sorted_tests returns exactly the dict-shaped history
entries (a permutation), sorted descending by the key that is the parsed
completion timestamp, falling back to the parsed expiryDate and then to the
minimum timestamp; on a null or empty motTests field it returns the empty
list (never raising). -/
theorem C6_sorted_tests (v : JObj) :
    (CCSensor._sorted_tests v).Perm (CCSensor.testsOf v)
  ∧ (CCSensor._sorted_tests v).Pairwise (fun a b => CCSensor.testKey b ≤ CCSensor.testKey a)
  ∧ (jget v "motTests" = JVal.null → CCSensor._sorted_tests v = [])
  ∧ (jget v "motTests" = JVal.arr [] → CCSensor._sorted_tests v = []) := by
  refine ⟨sortStable_perm _ _, ?_, ?_, ?_⟩
  · have hp := sortStable_pairwise (fun a b => decide (CCSensor.testKey b ≤ CCSensor.testKey a))
      (fun a b c hab hbc => by
        simp only [decide_eq_true_eq] at *
        omega)
      (fun a b => by
        simp only [decide_eq_true_eq]
        omega)
      (CCSensor.testsOf v)
    exact hp.imp (fun h => of_decide_eq_true h)
  · intro h
    simp [CCSensor._sorted_tests, CCSensor.testsOf, pyOr, JVal.truthy, h, sortStable]
  · intro h
    simp [CCSensor._sorted_tests, CCSensor.testsOf, pyOr, JVal.truthy, h, sortStable]

/-- Witness for C6 amended at concrete payloads: a null motTests yields the
empty list, and the counterexample payload stays a permutation of its two
entries. -/
theorem C6_sorted_tests_witness :
    CCSensor._sorted_tests [("motTests", JVal.null)] = []
  ∧ (CCSensor._sorted_tests vehicleC6).Perm (CCSensor.testsOf vehicleC6) :=
  ⟨(C6_sorted_tests [("motTests", JVal.null)]).2.2.1 rfl, (C6_sorted_tests vehicleC6).1⟩

/-- C8: characterization of the spec-modelled two-point annual mileage
estimator. With the usable readings (OK flag, recognized unit, numeric
odometer, parseable completion date) scanned from the sorted history: fewer
than two usable readings give no estimate; with two, equal units, a positive
day gap and a positive delta give (newer - older) / days * 365.25, and a
unit mismatch, nonpositive day gap or nonpositive delta gives no
estimate. -/
theorem C8_two_point (v : JObj) :
    ((CCSensor._sorted_tests v).filterMap TwoPoint.usableReading = [] →
        TwoPoint.annual_mileage_two_point v = none)
  ∧ (∀ r1, (CCSensor._sorted_tests v).filterMap TwoPoint.usableReading = [r1] →
        TwoPoint.annual_mileage_two_point v = none)
  ∧ ∀ r1 r2 rest,
      (CCSensor._sorted_tests v).filterMap TwoPoint.usableReading = r1 :: r2 :: rest →
        (r1.2.1 = r2.2.1 → r2.2.2.toDays < r1.2.2.toDays → r2.1 < r1.1 →
          TwoPoint.annual_mileage_two_point v
            = some ((r1.1 - r2.1) / ((r1.2.2.toDays - r2.2.2.toDays : Int) : Rat) * 365.25))
      ∧ (¬ r1.2.1 = r2.2.1 → TwoPoint.annual_mileage_two_point v = none)
      ∧ (r1.2.2.toDays - r2.2.2.toDays ≤ 0 → TwoPoint.annual_mileage_two_point v = none)
      ∧ (r1.1 - r2.1 ≤ 0 → TwoPoint.annual_mileage_two_point v = none) := by
  refine ⟨?_, ?_, ?_⟩
  · intro h
    simp only [TwoPoint.annual_mileage_two_point, h]
  · intro r1 h
    simp only [TwoPoint.annual_mileage_two_point, h]
  · intro r1 r2 rest h
    refine ⟨?_, ?_, ?_, ?_⟩
    · intro hu hd hv
      simp only [TwoPoint.annual_mileage_two_point, h]
      rw [if_pos ⟨hu, by omega, sub_pos.mpr hv⟩]
    · intro hu
      simp only [TwoPoint.annual_mileage_two_point, h]
      rw [if_neg (fun hc => hu hc.1)]
    · intro hd
      simp only [TwoPoint.annual_mileage_two_point, h]
      rw [if_neg (fun hc => absurd hc.2.1 (by omega))]
    · intro hv
      simp only [TwoPoint.annual_mileage_two_point, h]
      rw [if_neg (fun hc => absurd hc.2.2 (not_lt.mpr hv))]

/-- The shared shape of the two due-date fallback fold steps, on the parsed
expiry value. -/
def bestD (best exp : Option DateM) : Option DateM :=
  match exp, best with
  | none, b => b
  | some e, none => some e
  | some e, some b => if b.toDays < e.toDays then some e else some b

theorem srcBestExpiry_eq_bestD (b : Option DateM) (t : JVal) :
    SrcSensor.bestExpiry b t = bestD b (SrcSensor._parse_date (jgetV t "expiryDate")) := by
  cases hp : SrcSensor._parse_date (jgetV t "expiryDate") <;> cases b <;>
    simp [SrcSensor.bestExpiry, bestD, hp]

theorem ccBestExpiry_eq_bestD (b : Option DateM) (t : JObj) :
    CCSensor.bestExpiry b t = bestD b (CCSensor._parse_date (jget t "expiryDate")) := by
  cases hp : CCSensor._parse_date (jget t "expiryDate") <;> cases b <;>
    simp [CCSensor.bestExpiry, bestD, hp]

theorem mkValidDate_valid {y m d : Int} {dd : DateM} (h : mkValidDate y m d = some dd) :
    ValidDate dd ∧ dd = ⟨y, m, d⟩ := by
  unfold mkValidDate at h
  split at h
  · cases h
    constructor
    · assumption
    · rfl
  · cases h

theorem strptimeYMD_valid {cs : List Char} {d : DateM} (h : strptimeYMD cs = some d) :
    ValidDate d := by
  unfold strptimeYMD at h
  split at h
  · cases h
  · split at h
    · cases h
    · split at h
      · cases h
      · split at h
        · cases h
        · split at h
          · cases h
          · exact (mkValidDate_valid h).1

theorem src_parse_valid {v : JVal} {d : DateM} (h : SrcSensor._parse_date v = some d) :
    ValidDate d := by
  unfold SrcSensor._parse_date at h
  split at h
  · cases h
  · split at h
    · exact strptimeYMD_valid h
    · cases h

theorem bestD_swap (ex ey : DateM) (hvx : ValidDate ex) (hvy : ValidDate ey) :
    bestD (some ex) (some ey) = bestD (some ey) (some ex) := by
  simp only [bestD]
  by_cases hxy : ex.toDays < ey.toDays
  · rw [if_pos hxy, if_neg (by omega)]
  · by_cases hyx : ey.toDays < ex.toDays
    · rw [if_neg hxy, if_pos hyx]
    · rw [if_neg hxy, if_neg hyx]
      exact congrArg some (toDays_inj_on_valid ex ey hvx hvy (by omega))

theorem bestD_comm (b x y : Option DateM)
    (hx : ∀ e, x = some e → ValidDate e) (hy : ∀ e, y = some e → ValidDate e) :
    bestD (bestD b x) y = bestD (bestD b y) x := by
  cases x with
  | none => rfl
  | some ex =>
    cases y with
    | none => rfl
    | some ey =>
      have hvx := hx ex rfl
      have hvy := hy ey rfl
      cases b with
      | none => exact bestD_swap ex ey hvx hvy
      | some eb =>
        by_cases hbx : eb.toDays < ex.toDays <;> by_cases hby : eb.toDays < ey.toDays
        · rw [show bestD (some eb) (some ex) = some ex from by simp [bestD, hbx],
              show bestD (some eb) (some ey) = some ey from by simp [bestD, hby]]
          exact bestD_swap ex ey hvx hvy
        · rw [show bestD (some eb) (some ex) = some ex from by simp [bestD, hbx],
              show bestD (some eb) (some ey) = some eb from by simp [bestD, hby]]
          simp only [bestD]
          rw [if_neg (by omega), if_pos hbx]
        · rw [show bestD (some eb) (some ex) = some eb from by simp [bestD, hbx],
              show bestD (some eb) (some ey) = some ey from by simp [bestD, hby]]
          simp only [bestD]
          rw [if_neg (by omega)]
        · rw [show bestD (some eb) (some ex) = some eb from by simp [bestD, hbx],
              show bestD (some eb) (some ey) = some eb from by simp [bestD, hby]]
          simp only [bestD]
          rw [if_neg hbx]

theorem foldl_bestD_perm {l1 l2 : List (Option DateM)} (hp : l1.Perm l2) :
    (∀ x ∈ l1, ∀ e, x = some e → ValidDate e) →
      ∀ b, l1.foldl bestD b = l2.foldl bestD b := by
  induction hp with
  | nil => exact fun _ _ => rfl
  | cons x p ih =>
    intro hv b
    simp only [List.foldl_cons]
    exact ih (fun x2 hx2 e he => hv x2 (List.mem_cons_of_mem _ hx2) e he) (bestD b x)
  | swap x y l =>
    intro hv b
    simp only [List.foldl_cons]
    rw [bestD_comm b y x
      (fun e he => hv y (List.mem_cons_self _ _) e he)
      (fun e he => hv x (List.mem_cons_of_mem _ (List.mem_cons_self _ _)) e he)]
  | trans p1 p2 ih1 ih2 =>
    intro hv b
    rw [ih1 hv b, ih2 (fun x hx e he => hv x (p1.symm.subset hx) e he) b]

/-- A date string in the canonical form YYYY-MM-DD: ten characters, digits
and dashes, denoting a representable calendar date. Returns that date. -/
def canonParse (cs : List Char) : Option DateM :=
  match cs with
  | [a, b, c, d, s1, e, f, s2, g, h] =>
    if isDigitC a ∧ isDigitC b ∧ isDigitC c ∧ isDigitC d ∧ s1 = '-' ∧
       isDigitC e ∧ isDigitC f ∧ s2 = '-' ∧ isDigitC g ∧ isDigitC h then
      mkValidDate ((1000 * dv a + 100 * dv b + 10 * dv c + dv d : Nat) : Int)
        ((10 * dv e + dv f : Nat) : Int) ((10 * dv g + dv h : Nat) : Int)
    else none
  | _ => none

theorem digit_not_space {c : Char} (h : isDigitC c = true) : isPySpace c = false := by
  simp only [isDigitC, decide_eq_true_eq] at h
  simp only [isPySpace, decide_eq_false_iff_not]
  omega

theorem digit_ne_Z {c : Char} (h : isDigitC c = true) : ¬ c = 'Z' := by
  intro hc
  subst hc
  revert h
  decide

theorem canon_src {s : String} {d : DateM} (h : canonParse s.data = some d) :
    SrcSensor._parse_date (JVal.str s) = some d := by
  unfold canonParse at h
  split at h
  case h_2 => cases h
  case h_1 a b c d4 s1 e f s2 g h10 heq =>
    split at h
    case isFalse => cases h
    case isTrue hcond =>
      obtain ⟨ha, hb, hc, hd, hs1, he, hf, hs2, hg, hh⟩ := hcond
      subst hs1
      subst hs2
      obtain ⟨hval, rfl⟩ := mkValidDate_valid h
      unfold ValidDate at hval
      dsimp only at hval
      obtain ⟨hy1, hy2, hm1, hm2, hd1, hd2⟩ := hval
      have hm1n : 1 ≤ 10 * dv e + dv f := by omega
      have hm2n : 10 * dv e + dv f ≤ 12 := by omega
      have hdmax : daysInMonth ((1000 * dv a + 100 * dv b + 10 * dv c + dv d4 : Nat) : Int)
          ((10 * dv e + dv f : Nat) : Int) ≤ 31 := daysInMonth_le_31 _ _
      have hd1n : 1 ≤ 10 * dv g + dv h10 := by omega
      have hd2n : 10 * dv g + dv h10 ≤ 31 := by omega
      have hsne : ¬ s = "" := by
        intro hs
        rw [hs] at heq
        simp at heq
      simp only [SrcSensor._parse_date, JVal.truthy,
        beq_eq_false_iff_ne.mpr hsne, Bool.not_false, Bool.not_true, Bool.false_eq_true,
        if_false]
      rw [heq]
      have htake : List.take 10 [a, b, c, d4, '-', e, f, '-', g, h10]
          = [a, b, c, d4, '-', e, f, '-', g, h10] := by
        rfl
      rw [htake]
      have h4 : parse4 [a, b, c, d4, '-', e, f, '-', g, h10]
          = some (1000 * dv a + 100 * dv b + 10 * dv c + dv d4, ['-', e, f, '-', g, h10]) := by
        simp [parse4, ha, hb, hc, hd]
      have hex1 : expectC '-' ['-', e, f, '-', g, h10] = some [e, f, '-', g, h10] := by
        simp [expectC]
      have hmo : parseMonthField [e, f, '-', g, h10]
          = some (10 * dv e + dv f, ['-', g, h10]) := by
        simp [parseMonthField, he, hf, hm1n, hm2n]
      have hex2 : expectC '-' ['-', g, h10] = some [g, h10] := by
        simp [expectC]
      have hday : parseDayFieldEnd [g, h10] = some (10 * dv g + dv h10) := by
        simp [parseDayFieldEnd, hg, hh, hd1n, hd2n]
      simp only [strptimeYMD, h4, hex1, hmo, hex2, hday]
      exact h

theorem canon_cc {s : String} {d : DateM} (h : canonParse s.data = some d) :
    CCSensor._parse_date (JVal.str s) = some d := by
  unfold canonParse at h
  split at h
  case h_2 => cases h
  case h_1 a b c d4 s1 e f s2 g h10 heq =>
    split at h
    case isFalse => cases h
    case isTrue hcond =>
      obtain ⟨ha, hb, hc, hd, hs1, he, hf, hs2, hg, hh⟩ := hcond
      subst hs1
      subst hs2
      obtain ⟨hval, rfl⟩ := mkValidDate_valid h
      have hsne : ¬ s = "" := by
        intro hs
        rw [hs] at heq
        simp at heq
      have hstrip : stripList [a, b, c, d4, '-', e, f, '-', g, h10]
          = [a, b, c, d4, '-', e, f, '-', g, h10] := by
        unfold stripList
        rw [List.dropWhile_cons, digit_not_space ha]
        simp only [Bool.false_eq_true, if_false]
        rw [show List.reverse [a, b, c, d4, '-', e, f, '-', g, h10]
            = [h10, g, '-', f, e, '-', d4, c, b, a] from by simp]
        rw [List.dropWhile_cons, digit_not_space hh]
        simp only [Bool.false_eq_true, if_false]
        simp
      have hz : replaceZ [a, b, c, d4, '-', e, f, '-', g, h10]
          = [a, b, c, d4, '-', e, f, '-', g, h10] := by
        simp [replaceZ, digit_ne_Z ha, digit_ne_Z hb, digit_ne_Z hc, digit_ne_Z hd,
          digit_ne_Z he, digit_ne_Z hf, digit_ne_Z hg, digit_ne_Z hh,
          show ¬(Char.ofNat 45 = 'Z') from by decide]
      have h4 : parse4 [a, b, c, d4, '-', e, f, '-', g, h10]
          = some (1000 * dv a + 100 * dv b + 10 * dv c + dv d4, ['-', e, f, '-', g, h10]) := by
        simp [parse4, ha, hb, hc, hd]
      have hex1 : expectC '-' ['-', e, f, '-', g, h10] = some [e, f, '-', g, h10] := by
        simp [expectC]
      have hmo : parse2 [e, f, '-', g, h10] = some (10 * dv e + dv f, ['-', g, h10]) := by
        simp [parse2, he, hf]
      have hex2 : expectC '-' ['-', g, h10] = some [g, h10] := by
        simp [expectC]
      have hday : parse2 [g, h10] = some (10 * dv g + dv h10, []) := by
        simp [parse2, hg, hh]
      have hiso : fromisoformatM [a, b, c, d4, '-', e, f, '-', g, h10]
          = some ⟨⟨((1000 * dv a + 100 * dv b + 10 * dv c + dv d4 : Nat) : Int),
                  ((10 * dv e + dv f : Nat) : Int), ((10 * dv g + dv h10 : Nat) : Int)⟩, 0⟩ := by
        simp only [fromisoformatM, h4, hex1, hmo, hex2, hday]
        rw [h]
      simp only [CCSensor._parse_date, CCSensor._parse_dt, JVal.truthy,
        beq_eq_false_iff_ne.mpr hsne, Bool.not_false, Bool.not_true, Bool.false_eq_true,
        if_false]
      rw [heq, hstrip]
      simp only [List.isEmpty_cons, Bool.false_eq_true, if_false, hz, hiso]
      rfl

/-- Both parse functions agree on absent dates and canonical date strings. -/
theorem canon_point {w : JVal}
    (hw : w = JVal.null ∨ ∃ s dd, w = JVal.str s ∧ canonParse s.data = some dd) :
    CCSensor._parse_date w = SrcSensor._parse_date w := by
  rcases hw with rfl | ⟨s, dd, rfl, hcanon⟩
  · rfl
  · rw [canon_src hcanon, canon_cc hcanon]

theorem testsOf_eq (o : JObj) :
    CCSensor.testsOf o = (SrcSensor.motTestsList o).filterMap asObj := by
  unfold CCSensor.testsOf SrcSensor.motTestsList
  cases pyOr (jget o "motTests") (JVal.arr []) <;> rfl

theorem filterMap_obj_map {xs : List JVal} (hdict : ∀ t ∈ xs, ∃ o2, t = JVal.obj o2) :
    (xs.filterMap asObj).map JVal.obj = xs := by
  induction xs with
  | nil => rfl
  | cons t ts ih =>
    obtain ⟨o2, rfl⟩ := hdict t (List.mem_cons_self _ _)
    simp only [List.filterMap_cons, asObj, List.map_cons]
    rw [ih (fun t2 ht2 => hdict t2 (List.mem_cons_of_mem _ ht2))]

theorem mem_of_mem_filterMap_asObj {xs : List JVal} {t : JObj}
    (h : t ∈ xs.filterMap asObj) : JVal.obj t ∈ xs := by
  rcases List.mem_filterMap.mp h with ⟨v, hv, hvt⟩
  cases v <;> simp [asObj] at hvt
  rw [hvt] at hv
  exact hv

theorem fallback_fold_eq (o : JObj)
    (hdict : ∀ t ∈ SrcSensor.motTestsList o, ∃ o2, t = JVal.obj o2)
    (hexp : ∀ t ∈ SrcSensor.motTestsList o,
        jgetV t "expiryDate" = JVal.null
      ∨ ∃ s dd, jgetV t "expiryDate" = JVal.str s ∧ canonParse s.data = some dd) :
    (SrcSensor.motTestsList o).foldl SrcSensor.bestExpiry none
      = (CCSensor._sorted_tests o).foldl CCSensor.bestExpiry none := by
  have hsrcfn : SrcSensor.bestExpiry
      = fun (b2 : Option DateM) (t : JVal) => bestD b2 (SrcSensor._parse_date (jgetV t "expiryDate")) := by
    funext b2 t
    exact srcBestExpiry_eq_bestD b2 t
  have hccfn : CCSensor.bestExpiry
      = fun (b2 : Option DateM) (t : JObj) => bestD b2 (CCSensor._parse_date (jget t "expiryDate")) := by
    funext b2 t
    exact ccBestExpiry_eq_bestD b2 t
  have h1 : (SrcSensor.motTestsList o).foldl
        (fun b2 t => bestD b2 (SrcSensor._parse_date (jgetV t "expiryDate"))) none
      = ((SrcSensor.motTestsList o).map
          (fun t => SrcSensor._parse_date (jgetV t "expiryDate"))).foldl bestD none :=
    (List.foldl_map _ _ _ _).symm
  have h2 : (CCSensor._sorted_tests o).foldl
        (fun b2 t => bestD b2 (CCSensor._parse_date (jget t "expiryDate"))) none
      = ((CCSensor._sorted_tests o).map
          (fun t => CCSensor._parse_date (jget t "expiryDate"))).foldl bestD none :=
    (List.foldl_map _ _ _ _).symm
  rw [hsrcfn, hccfn, h1, h2]
  have hccmap : (CCSensor._sorted_tests o).map (fun t => CCSensor._parse_date (jget t "expiryDate"))
      = (CCSensor._sorted_tests o).map (fun t => SrcSensor._parse_date (jget t "expiryDate")) := by
    refine List.map_congr_left ?_
    intro t ht
    have ht2 : t ∈ CCSensor.testsOf o :=
      (sortStable_perm _ (CCSensor.testsOf o)).subset ht
    have ht3 : JVal.obj t ∈ SrcSensor.motTestsList o := by
      rw [testsOf_eq] at ht2
      exact mem_of_mem_filterMap_asObj ht2
    have := canon_point (w := jgetV (JVal.obj t) "expiryDate") (hexp _ ht3)
    exact this
  rw [hccmap]
  have hsrcmap : (SrcSensor.motTestsList o).map (fun t => SrcSensor._parse_date (jgetV t "expiryDate"))
      = (CCSensor.testsOf o).map (fun t => SrcSensor._parse_date (jget t "expiryDate")) := by
    conv =>
      lhs
      rw [show SrcSensor.motTestsList o = (CCSensor.testsOf o).map JVal.obj from by
        rw [testsOf_eq]
        exact (filterMap_obj_map hdict).symm]
    rw [List.map_map]
    rfl
  rw [hsrcmap]
  refine foldl_bestD_perm ?_ ?_ none
  · exact (List.Perm.map _ (sortStable_perm _ (CCSensor.testsOf o))).symm
  · intro x hx e he
    rcases List.mem_map.mp hx with ⟨t, ht, hxt⟩
    rw [← hxt] at he
    exact src_parse_valid he

theorem C9_agreement (o : JObj)
    (hdue : jget o "motTestDueDate" = JVal.null
      ∨ ∃ s dd, jget o "motTestDueDate" = JVal.str s ∧ canonParse s.data = some dd)
    (hdict : ∀ t ∈ SrcSensor.motTestsList o, ∃ o2, t = JVal.obj o2)
    (hexp : ∀ t ∈ SrcSensor.motTestsList o,
        jgetV t "expiryDate" = JVal.null
      ∨ ∃ s dd, jgetV t "expiryDate" = JVal.str s ∧ canonParse s.data = some dd) :
    SrcSensor._extract_current_due_date o = CCSensor._extract_current_due_date o := by
  have hhead : SrcSensor._parse_date (jget o "motTestDueDate")
      = CCSensor._parse_date (jget o "motTestDueDate") :=
    (canon_point hdue).symm
  unfold SrcSensor._extract_current_due_date CCSensor._extract_current_due_date
  rw [hhead]
  cases hcc : CCSensor._parse_date (jget o "motTestDueDate") with
  | some dd => rfl
  | none => exact fallback_fold_eq o hdict hexp

def vehicleC9 : JObj :=
  [("motTests", JVal.arr
    [JVal.obj [("expiryDate", JVal.str "2028-05-05")],
     JVal.obj [("expiryDate", JVal.str "2030-01-01")]])]

theorem C9_agreement_witness :
    SrcSensor._extract_current_due_date vehicleC9
      = CCSensor._extract_current_due_date vehicleC9 := by
  have hlist : SrcSensor.motTestsList vehicleC9
      = [JVal.obj [("expiryDate", JVal.str "2028-05-05")],
         JVal.obj [("expiryDate", JVal.str "2030-01-01")]] := rfl
  refine C9_agreement vehicleC9 (Or.inl rfl) ?_ ?_
  · intro t ht
    rw [hlist] at ht
    rcases List.mem_cons.mp ht with rfl | ht2
    · exact ⟨_, rfl⟩
    rcases List.mem_cons.mp ht2 with rfl | ht3
    · exact ⟨_, rfl⟩
    cases ht3
  · intro t ht
    rw [hlist] at ht
    rcases List.mem_cons.mp ht with rfl | ht2
    · exact Or.inr ⟨"2028-05-05", ⟨2028, 5, 5⟩, rfl, by rfl⟩
    rcases List.mem_cons.mp ht2 with rfl | ht3
    · exact Or.inr ⟨"2030-01-01", ⟨2030, 1, 1⟩, rfl, by rfl⟩
    cases ht3

/-- C9 counterexample: the two due-date extraction implementations disagree
at motTestDueDate written with dot separators: the strict strptime parser of
src/sensor.py yields no date while the regex fallback of the
custom_components parser accepts it. -/
theorem C9_counterexample :
    SrcSensor._extract_current_due_date [("motTestDueDate", JVal.str "2030.01.01")] = none
  ∧ CCSensor._extract_current_due_date [("motTestDueDate", JVal.str "2030.01.01")]
      = some ⟨2030, 1, 1⟩
  ∧ (none : Option DateM) ≠ some ⟨2030, 1, 1⟩ :=
  ⟨rfl, rfl, by simp⟩

/-- The spec test vector for the two-point estimator: two OK mi readings,
36500 then 40150, completed exactly 365 days apart. -/
def vehicleTP : JObj :=
  [("motTests", JVal.arr
    [JVal.obj [("completedDate", JVal.str "2023-01-15"), ("odometerValue", JVal.num 40150),
               ("odometerResultType", JVal.str "OK"), ("odometerUnit", JVal.str "mi")],
     JVal.obj [("completedDate", JVal.str "2022-01-15"), ("odometerValue", JVal.num 36500),
               ("odometerResultType", JVal.str "OK"), ("odometerUnit", JVal.str "mi")]])]

/-- Witness for C8 at the spec test vector: the estimate is
(40150 - 36500) / 365 * 365.25. -/
theorem C8_two_point_witness :
    TwoPoint.annual_mileage_two_point vehicleTP
      = some (((40150 : Rat) - 36500) / ((365 : Int) : Rat) * 365.25) := by
  have h := ((C8_two_point vehicleTP).2.2 (40150, "mi", ⟨2023, 1, 15⟩) (36500, "mi", ⟨2022, 1, 15⟩)
    [] (by rfl)).1 rfl (by decide) (by decide)
  have hdays : (DateM.toDays ⟨2023, 1, 15⟩ - DateM.toDays ⟨2022, 1, 15⟩ : Int) = 365 := by decide
  rw [h, hdays]
